import Mathlib

/-!
Verification development for the Attendify attendance backend.

The Python sources under `backend/app` are shallowly embedded:
pure functions become Lean functions over `ℚ` (Python floats), `Option`
(Python `None`), `List` and `String`; database query results and the
trigonometric haversine distances are passed in as explicit inputs (they
are the code's external oracles); code that raises becomes `Except`.
Nontrivial numeric rendering inside human-readable message strings is
kept as explicit builder functions of the same numeric arguments the
f-strings interpolate.
-/

/-! ## Python-semantics helpers -/

/-- Python truthiness of an optional string: `None` and `""` are falsy. -/
def truthyStr : Option String → Bool
  | none => false
  | some s => !s.isEmpty

/-- Python truthiness of an optional number: `None` and `0` are falsy. -/
def truthyQ : Option ℚ → Bool
  | none => false
  | some q => q != 0

/-- Python truthiness of an optional integer id: `None` and `0` are falsy. -/
def truthyNat : Option ℕ → Bool
  | none => false
  | some n => n != 0

/-- Python `int(x)` on a float: truncation toward zero. -/
def pyInt (q : ℚ) : ℤ :=
  if q < 0 then -(⌊-q⌋) else ⌊q⌋

/-- Nearest integer with ties to even, as Python's `round` resolves halves. -/
def roundHalfEven (x : ℚ) : ℤ :=
  let f := ⌊x⌋
  let r := x - f
  if r < 1 / 2 then f
  else if 1 / 2 < r then f + 1
  else if f % 2 = 0 then f else f + 1

/-- Python `round(x, 1)`: round to one decimal place. -/
def pyRound1 (x : ℚ) : ℚ := (roundHalfEven (10 * x) : ℚ) / 10

/-- `leadsWith pat cs`: the character list `cs` starts with `pat`. -/
def leadsWith : List Char → List Char → Bool
  | [], _ => true
  | _ :: _, [] => false
  | p :: ps, c :: cs => (p == c) && leadsWith ps cs

/-- `hasSubList pat cs`: `pat` occurs as a contiguous run inside `cs`. -/
def hasSubList (pat : List Char) : List Char → Bool
  | [] => leadsWith pat []
  | c :: cs => leadsWith pat (c :: cs) || hasSubList pat cs

/-- Python's substring test `pat in s` (also SQLAlchemy `status.contains`). -/
def containsSub (s pat : String) : Bool := hasSubList pat.toList s.toList

/-- Python `", ".join` separator. -/
def COMMA_SEP : String := ", "

instance {ε α : Type} [DecidableEq ε] [DecidableEq α] : DecidableEq (Except ε α) :=
  fun x y =>
    match x, y with
    | .ok a, .ok b => if h : a = b then .isTrue (by rw [h]) else .isFalse (by simp [h])
    | .error a, .error b => if h : a = b then .isTrue (by rw [h]) else .isFalse (by simp [h])
    | .ok _, .error _ => .isFalse (by simp)
    | .error _, .ok _ => .isFalse (by simp)

/-! ## core/config_thresholds.py -/

/-- `VerificationThresholds` (`core/config_thresholds.py`): a plain
`@dataclass` of tunables.  The generated constructor stores the fields as
given; the class defines no `__post_init__`, so no tier assignment is
validated at construction time. -/
structure VerificationThresholds where
  FACE_CONFIDENCE_HIGH : ℚ := 80
  FACE_CONFIDENCE_MEDIUM : ℚ := 65
  FACE_CONFIDENCE_LOW : ℚ := 50
  FACE_CONFIDENCE_REJECT : ℚ := 40
  MAX_LBPH_DISTANCE : ℚ := 80
  WARN_LBPH_DISTANCE : ℚ := 60
  MULTI_FACE_IS_PROXY_RISK : Bool := true
  IDENTITY_MISMATCH_STRICT : Bool := true
  REQUIRED_CONSISTENT_FRAMES : ℕ := 3
  FRAME_CAPTURE_INTERVAL_MS : ℕ := 500
  MAX_IDENTITY_SWITCHES : ℕ := 1
  DUPLICATE_WINDOW_SECONDS : ℕ := 300
  ALLOW_RE_VERIFICATION : Bool := true
  LIVENESS_ENABLED : Bool := true
  BLINK_DETECTION_TIMEOUT_SEC : ℚ := 5
  EAR_BLINK_THRESHOLD : ℚ := 21 / 100
  MIN_BLINK_FRAMES : ℕ := 2
  deriving DecidableEq, Repr

def LABEL_HIGH : String := "HIGH"

def LABEL_MEDIUM : String := "MEDIUM"

def LABEL_LOW : String := "LOW"

def LABEL_REJECTED : String := "REJECTED"

def LABEL_UNKNOWN : String := "UNKNOWN"

/-- `VerificationThresholds.get_confidence_label`. -/
def VerificationThresholds.get_confidence_label (t : VerificationThresholds)
    (confidence : ℚ) : String :=
  if confidence ≥ t.FACE_CONFIDENCE_HIGH then LABEL_HIGH
  else if confidence ≥ t.FACE_CONFIDENCE_MEDIUM then LABEL_MEDIUM
  else if confidence ≥ t.FACE_CONFIDENCE_LOW then LABEL_LOW
  else LABEL_REJECTED

/-- The module-level singleton `thresholds = VerificationThresholds()`. -/
def thresholds : VerificationThresholds := {}

/-! ## Data model (models/attendance.py, models/session.py) -/

/-- Exceptions the embedded request handlers can raise. -/
inductive PyErr where
  /-- An undefined attribute was read (Python `AttributeError`). -/
  | attributeError
  /-- `HTTPException(code, msg)`. -/
  | http (code : ℕ) (msg : String)
  deriving DecidableEq, Repr

/-- `Student` row (models/attendance.py). -/
structure Student where
  id : ℕ
  name : String
  roll_number : String := ""
  fingerprint_id : Option String := none
  id_card_code : Option String := none
  deriving DecidableEq, Repr

/-- `AttendanceLog` row (models/attendance.py); timestamps are epoch seconds. -/
structure AttendanceLog where
  id : ℕ := 0
  student_id : Option ℕ := none
  session_id : Option ℕ := none
  timestamp : ℚ := 0
  status : String
  confidence : ℚ := 0
  avg_confidence : ℚ := 0
  confidence_label : Option String := none
  is_proxy_suspected : Bool := false
  verification_method : Option String := none
  notes : Option String := none
  frame_count : ℕ := 1
  liveness_passed : Bool := false
  latitude : Option ℚ := none
  longitude : Option ℚ := none
  ip_address : Option String := none
  is_anomaly : Bool := false
  anomaly_reason : Option String := none
  deriving DecidableEq, Repr

def SESSION_PENDING : String := "pending"

def SESSION_ACTIVE : String := "active"

def SESSION_ENDED : String := "ended"

/-- `AttendanceSession` row (models/session.py). -/
structure AttendanceSession where
  id : ℕ
  status : String := SESSION_PENDING
  require_liveness : Bool := false
  started_at : Option ℚ := none
  ended_at : Option ℚ := none
  deriving DecidableEq, Repr

/-- `AttendanceSession.is_active` property. -/
def AttendanceSession.is_active (s : AttendanceSession) : Bool :=
  s.status == SESSION_ACTIVE

/-- The relational store the request handlers query. -/
structure DB where
  students : List Student := []
  logs : List AttendanceLog := []
  sessions : List AttendanceSession := []
  deriving DecidableEq, Repr

/-! ## services/anomaly_service.py -/

def MAX_DISTANCE_METERS : ℚ := 500

def IMPOSSIBLE_SPEED_MPS : ℚ := 42

def MAX_FAILED_ATTEMPTS_WINDOW : ℕ := 300

def MAX_FAILED_ATTEMPTS : ℕ := 5

def W_location : ℚ := 30

def W_time : ℚ := 20

def W_travel : ℚ := 40

def W_failed_attempts : ℚ := 25

def W_device : ℚ := 15

inductive RiskLevel where
  | LOW
  | MEDIUM
  | HIGH
  | CRITICAL
  deriving DecidableEq, Repr

/-- Severity order of the four risk tiers. -/
def levelRank : RiskLevel → ℕ
  | .LOW => 0
  | .MEDIUM => 1
  | .HIGH => 2
  | .CRITICAL => 3

/-- `AnomalyResult` dataclass. -/
structure AnomalyResult where
  is_anomaly : Bool
  risk_level : RiskLevel
  risk_score : ℚ
  reasons : List String
  recommendations : List String
  deriving DecidableEq, Repr

/-- `calculate_risk_level`. -/
def calculate_risk_level (score : ℚ) : RiskLevel :=
  if score ≥ 70 then .CRITICAL
  else if score ≥ 50 then .HIGH
  else if score ≥ 25 then .MEDIUM
  else .LOW

def offCampusReason (dist : ℚ) : String :=
  "📍 Off-Campus Location (" ++ toString (pyInt dist) ++ "m from campus)"

def lateReason (diff : ℚ) : String :=
  "⏰ Late Submission (" ++ toString (pyInt (diff / 60)) ++ "min after session ended)"

def earlyReason (diff : ℚ) : String :=
  "⏰ Early Submission (" ++ toString (pyInt (diff / 60)) ++ "min before session start)"

def impossibleTravelReason (dist time_diff speed : ℚ) : String :=
  "🚨 Impossible Travel (" ++ toString (pyInt dist) ++ "m in " ++
    toString (pyInt time_diff) ++ "s = " ++ toString (pyInt (speed * (36 / 10))) ++ "km/h)"

def rapidMovementReason (dist time_diff : ℚ) : String :=
  "⚠️ Suspicious Rapid Movement (" ++ toString (pyInt dist) ++ "m in " ++
    toString (pyInt time_diff) ++ "s)"

def repeatedFailuresReason (n : ℕ) : String :=
  "🔴 Repeated Failures (" ++ toString n ++ " failed attempts in 5min)"

def multipleFailuresReason (n : ℕ) : String :=
  "🟡 Multiple Failures (" ++ toString n ++ " failed attempts in 5min)"

def deviceAbuseReason (n : ℕ) : String :=
  "🔴 Device Abuse (" ++ toString n ++ " failures from same device)"

def multiDeviceReason (n : ℕ) : String :=
  "🔄 Multi-Device Activity (" ++ toString n ++ " devices in 1hr)"

def REC_LOCATION : String := "Verify student is physically present on campus"

def REC_TIME : String := "Cross-check with session attendance records"

def REC_TRAVEL : String := "Investigate possible credential sharing"

def REC_FAIL : String := "Consider temporary account lockout"

def REC_DEVICE : String := "Review device access patterns"

/-- `_check_location_anomaly(lat, lon)`.  The haversine great-circle
distance from campus is trigonometric, so it is supplied as the oracle
input `distToCampus` (used only when both coordinates are present, exactly
as the source computes it then). -/
def check_location_anomaly (lat lon : Option ℚ) (distToCampus : ℚ) :
    List String × ℚ :=
  if lat.isSome && lon.isSome then
    let dist := distToCampus
    if dist > MAX_DISTANCE_METERS then
      ([offCampusReason dist], min W_location (W_location * (dist / 5000)))
    else ([], 0)
  else ([], 0)

/-- `_check_time_anomaly(db, session_id, timestamp)`; the session-by-id
query result is the input `sessionRec`. -/
def check_time_anomaly (sessionRec : Option AttendanceSession) (timestamp : ℚ) :
    List String × ℚ :=
  match sessionRec with
  | none => ([], 0)
  | some session =>
    let r1 :=
      match session.ended_at with
      | some ended =>
        let diff := timestamp - ended
        if diff > 3600 then ([lateReason diff], W_time) else ([], 0)
      | none => ([], 0)
    match session.started_at with
    | some started =>
      let diff := started - timestamp
      if diff > 1800 then (r1.1 ++ [earlyReason diff], max r1.2 (W_time * (1 / 2)))
      else r1
    | none => r1

/-- The fields `_check_behavioral_anomaly` reads off the student's most
recent other log. -/
structure PrevLogInfo where
  timestamp : ℚ
  latitude : Option ℚ := none
  longitude : Option ℚ := none
  deriving DecidableEq, Repr

/-- `_check_behavioral_anomaly(db, log, lat, lon)`: the most-recent-log
query result is `lastLog` and the haversine distance between the two
positions is the oracle input `distToLast`. -/
def check_behavioral_anomaly (lastLog : Option PrevLogInfo) (logTimestamp : ℚ)
    (lat lon : Option ℚ) (distToLast : ℚ) : List String × ℚ :=
  match lastLog with
  | none => ([], 0)
  | some ll =>
    if truthyQ ll.latitude && truthyQ ll.longitude && truthyQ lat && truthyQ lon then
      let td := |logTimestamp - ll.timestamp|
      let time_diff := if td < 1 then 1 else td
      let dist := distToLast
      let speed_mps := dist / time_diff
      if speed_mps > IMPOSSIBLE_SPEED_MPS then
        ([impossibleTravelReason dist time_diff speed_mps], W_travel)
      else if time_diff < 60 && dist > 1000 then
        ([rapidMovementReason dist time_diff], W_travel * (6 / 10))
      else ([], 0)
    else ([], 0)

/-- `_check_failed_attempts(db, student_id, ip_address)`: the two windowed
failure counts are the query-result inputs. -/
def check_failed_attempts (student_id : Option ℕ) (ip_address : Option String)
    (studentFailedCount ipFailedCount : ℕ) : List String × ℚ :=
  let r1 :=
    if truthyNat student_id then
      if studentFailedCount ≥ MAX_FAILED_ATTEMPTS then
        ([repeatedFailuresReason studentFailedCount], W_failed_attempts)
      else if studentFailedCount ≥ 3 then
        ([multipleFailuresReason studentFailedCount], W_failed_attempts * (1 / 2))
      else ([], 0)
    else ([], 0)
  if truthyStr ip_address then
    if ipFailedCount ≥ MAX_FAILED_ATTEMPTS * 2 then
      (r1.1 ++ [deviceAbuseReason ipFailedCount], max r1.2 W_device)
    else r1
  else r1

/-- `_check_device_anomaly(db, student_id, ip_address)`: the distinct-IP
count over the last hour is the query-result input `uniqueIps`. -/
def check_device_anomaly (student_id : Option ℕ) (ip_address : Option String)
    (uniqueIps : ℕ) : List String × ℚ :=
  if !truthyNat student_id || !truthyStr ip_address then ([], 0)
  else if uniqueIps != 0 && uniqueIps ≥ 3 then
    ([multiDeviceReason uniqueIps], W_device)
  else ([], 0)

/-- The database/geometry facts `analyze_anomalies` reads through its
helpers: each field is the result of one of the queries or haversine
computations in `anomaly_service.py`, supplied as an oracle input. -/
structure AnomalyInputs where
  distToCampus : ℚ := 0
  sessionRec : Option AttendanceSession := none
  lastLog : Option PrevLogInfo := none
  distToLast : ℚ := 0
  studentFailedCount : ℕ := 0
  ipFailedCount : ℕ := 0
  uniqueIps : ℕ := 0
  deriving DecidableEq, Repr

/-- Sub-check 1 of `analyze_anomalies`. -/
def locPart (inp : AnomalyInputs) (_log : AttendanceLog) (lat lon : Option ℚ) :
    List String × ℚ :=
  check_location_anomaly lat lon inp.distToCampus

/-- Sub-check 2 of `analyze_anomalies` (gated on `log.session_id`). -/
def timePart (inp : AnomalyInputs) (log : AttendanceLog) : List String × ℚ :=
  if truthyNat log.session_id then check_time_anomaly inp.sessionRec log.timestamp
  else ([], 0)

/-- Sub-check 3 of `analyze_anomalies` (gated on `log.student_id`). -/
def travPart (inp : AnomalyInputs) (log : AttendanceLog) (lat lon : Option ℚ) :
    List String × ℚ :=
  if truthyNat log.student_id then
    check_behavioral_anomaly inp.lastLog log.timestamp lat lon inp.distToLast
  else ([], 0)

/-- Sub-check 4 of `analyze_anomalies`. -/
def failPart (inp : AnomalyInputs) (log : AttendanceLog) : List String × ℚ :=
  check_failed_attempts log.student_id log.ip_address
    inp.studentFailedCount inp.ipFailedCount

/-- Sub-check 5 of `analyze_anomalies`. -/
def devPart (inp : AnomalyInputs) (log : AttendanceLog) : List String × ℚ :=
  check_device_anomaly log.student_id log.ip_address inp.uniqueIps

/-- The uncapped sum of the five sub-scores. -/
def subScoresTotal (inp : AnomalyInputs) (log : AttendanceLog)
    (lat lon : Option ℚ) : ℚ :=
  (locPart inp log lat lon).2 + (timePart inp log).2 + (travPart inp log lat lon).2 +
    (failPart inp log).2 + (devPart inp log).2

/-- `analyze_anomalies(db, log, lat, lon)`. -/
def analyze_anomalies (inp : AnomalyInputs) (log : AttendanceLog)
    (lat lon : Option ℚ) : AnomalyResult :=
  let loc := locPart inp log lat lon
  let time := timePart inp log
  let trav := travPart inp log lat lon
  let fail := failPart inp log
  let dev := devPart inp log
  let all_reasons := loc.1 ++ time.1 ++ trav.1 ++ fail.1 ++ dev.1
  let recommendations :=
    (if loc.1.isEmpty then [] else [REC_LOCATION]) ++
    (if time.1.isEmpty then [] else [REC_TIME]) ++
    (if trav.1.isEmpty then [] else [REC_TRAVEL]) ++
    (if fail.1.isEmpty then [] else [REC_FAIL]) ++
    (if dev.1.isEmpty then [] else [REC_DEVICE])
  let total_score := min 100 (loc.2 + time.2 + trav.2 + fail.2 + dev.2)
  { is_anomaly := all_reasons.length > 0,
    risk_level := calculate_risk_level total_score,
    risk_score := pyRound1 total_score,
    reasons := all_reasons,
    recommendations := recommendations }

/-- `detect_anomalies`: the backward-compatible wrapper returning reasons. -/
def detect_anomalies (inp : AnomalyInputs) (log : AttendanceLog)
    (lat lon : Option ℚ) : List String :=
  (analyze_anomalies inp log lat lon).reasons

/-! ## services/verification_service.py -/

/-- Per-frame matcher outcome: the dict `face_service.verify_student`
returns, with `status` one of `no_face` / `multiple_faces` / `success` /
`error`. -/
inductive FrameStatus where
  | no_face
  | multiple_faces
  | success
  | error
  deriving DecidableEq, Repr

/-- One `verify_student` result (the per-frame oracle output). -/
structure FrameResult where
  status : FrameStatus
  isMatch : Bool := false
  student_name : Option String := none
  confidence : ℚ := 0
  face_count : ℕ := 2
  face_rect : Option (List ℤ) := none
  message : Option String := none
  deriving DecidableEq, Repr

/-- The frames the per-frame loop collects into `identities`/`confidences`:
`status == "success" and result.get("match")`. -/
def matchedOf (frames : List FrameResult) : List FrameResult :=
  frames.filter (fun f => f.status == FrameStatus.success && f.isMatch)

def identitiesOf (frames : List FrameResult) : List (Option String) :=
  (matchedOf frames).map (fun f => f.student_name)

def confidencesOf (frames : List FrameResult) : List ℚ :=
  (matchedOf frames).map (fun f => f.confidence)

def multiFaceCount (frames : List FrameResult) : ℕ :=
  (frames.filter (fun f => f.status == FrameStatus.multiple_faces)).length

def noFaceCount (frames : List FrameResult) : ℕ :=
  (frames.filter (fun f => f.status == FrameStatus.no_face)).length

/-- `sum(confidences) / len(confidences) if confidences else 0`. -/
def avgConfOf (frames : List FrameResult) : ℚ :=
  if confidencesOf frames = [] then 0
  else (confidencesOf frames).sum / ((confidencesOf frames).length : ℚ)

/-- `VerificationResult` dataclass. -/
structure VerificationResult where
  success : Bool
  status : String
  student_name : Option String := none
  student_id : Option ℕ := none
  avg_confidence : ℚ := 0
  confidence_label : String := LABEL_UNKNOWN
  frame_count : ℕ := 0
  frames_matched : ℕ := 0
  liveness_passed : Bool := false
  is_proxy_suspected : Bool := false
  proxy_reason : Option String := none
  notes : List String := []
  deriving DecidableEq, Repr

def STATUS_NO_FRAMES : String := "No frames provided"

def STATUS_PROXY_MULTI_FACES : String := "Proxy Suspected: Multiple Faces"

def STATUS_NO_FACE_DETECTED : String := "No Face Detected"

def STATUS_FACE_NOT_RECOGNIZED : String := "Face Not Recognized"

def STATUS_PROXY_IDENTITY_SWITCH : String := "Proxy Suspected: Identity Switch"

def STATUS_LOW_CONFIDENCE_REJECTED : String := "Low Confidence - Rejected"

def STATUS_ALREADY_MARKED : String := "Already Marked"

def STATUS_VERIFIED : String := "Verified"

def STATUS_PROXY_ID_MISMATCH : String := "Proxy Suspected: ID Mismatch"

def STATUS_VERIFIED_BIOMETRIC : String := "Verified (Biometric)"

def FACE_VERIFIED : String := "Face Verified"

def multiFacesReason (k n : ℕ) : String :=
  "Multiple faces detected in " ++ toString k ++ "/" ++ toString n ++ " frames"

def inconsistentStatus (k n : ℕ) : String :=
  "Inconsistent Recognition (" ++ toString k ++ "/" ++ toString n ++ " frames)"

def onlyMatchedNote (k : ℕ) : String :=
  "Only " ++ toString k ++ " frames matched, need " ++
    toString thresholds.REQUIRED_CONSISTENT_FRAMES

def identitySwitchReason (ids : List (Option String)) : String :=
  "Multiple identities detected: " ++ toString (ids.dedup.map (fun o => o.getD ""))

def lowConfNote (avg : ℚ) : String :=
  "Confidence " ++ toString (pyRound1 avg) ++ "% below threshold " ++
    toString thresholds.FACE_CONFIDENCE_REJECT ++ "%"

def claimedMismatchReason (claimedName : String) (recognized : Option String) : String :=
  "Claimed " ++ claimedName ++ " but recognized as " ++ recognized.getD ""

def alreadyMarkedMultiNote (t : ℚ) : String :=
  "Attendance already marked at " ++ toString t

def lowConfReverifyNote : String := "Low confidence - consider re-verification"

/-- The exact-status list `_check_duplicate` filters on. -/
def acceptedStatusList : List String :=
  [STATUS_VERIFIED, STATUS_VERIFIED_BIOMETRIC, FACE_VERIFIED]

/-- `VerificationService._check_duplicate(db, student_name, session_id)`. -/
def check_duplicate (db : DB) (student_name : Option String) (session_id : ℕ) :
    Option AttendanceLog :=
  match db.students.find? (fun s => some s.name == student_name) with
  | none => none
  | some student =>
    db.logs.find? (fun l =>
      l.student_id == some student.id && l.session_id == some session_id &&
        acceptedStatusList.contains l.status)

/-- The tail of `verify_multi_frame` reached once the frames carry one
consistent identity ("# We have consistent identity" onwards): confidence
averaging, the reject cutoff, the claimed-identity proxy check and the
duplicate check. -/
def verify_consistent_tail (frames : List FrameResult) (session_id : Option ℕ)
    (claimed_student_id : Option String) (db : Option DB) : VerificationResult :=
  let frame_count := frames.length
  let identities := identitiesOf frames
  let frames_matched := identities.length
  let recognized_name := identities.getD 0 none
  let avg_confidence := avgConfOf frames
  let confidence_label := thresholds.get_confidence_label avg_confidence
  if avg_confidence < thresholds.FACE_CONFIDENCE_REJECT then
    { success := false, status := STATUS_LOW_CONFIDENCE_REJECTED,
      student_name := recognized_name, avg_confidence := avg_confidence,
      confidence_label := confidence_label,
      frame_count := frame_count, frames_matched := frames_matched,
      notes := [lowConfNote avg_confidence] }
  else
    let proxyCheck : Bool × Option String :=
      if truthyStr claimed_student_id && db.isSome then
        match db.bind (fun d => d.students.find? (fun s =>
            some (toString s.id) == claimed_student_id ||
              some s.roll_number == claimed_student_id)) with
        | some claimed_student =>
          if claimed_student.name.toLower != (recognized_name.getD "").toLower then
            (true, some (claimedMismatchReason claimed_student.name recognized_name))
          else (false, none)
        | none => (false, none)
      else (false, none)
    let dup : Option AttendanceLog :=
      match session_id, db with
      | some sid, some d =>
        if sid != 0 then check_duplicate d recognized_name sid else none
      | _, _ => none
    match dup with
    | some existing =>
      { success := false, status := STATUS_ALREADY_MARKED,
        student_name := recognized_name, avg_confidence := avg_confidence,
        confidence_label := confidence_label,
        frame_count := frame_count, frames_matched := frames_matched,
        notes := [alreadyMarkedMultiNote existing.timestamp] }
    | none =>
      { success := true,
        status := if proxyCheck.1 then STATUS_PROXY_ID_MISMATCH else STATUS_VERIFIED,
        student_name := recognized_name, avg_confidence := avg_confidence,
        confidence_label := confidence_label,
        frame_count := frame_count, frames_matched := frames_matched,
        liveness_passed := false,
        is_proxy_suspected := proxyCheck.1, proxy_reason := proxyCheck.2,
        notes :=
          (if confidence_label == LABEL_LOW then [lowConfReverifyNote] else []) ++
          (if proxyCheck.1 then [proxyCheck.2.getD ""] else []) }

/-- `VerificationService.verify_multi_frame(frames, session_id,
claimed_student_id, db)`.  The frames argument carries the per-frame
matcher oracle outputs. -/
def verify_multi_frame (frames : List FrameResult) (session_id : Option ℕ)
    (claimed_student_id : Option String) (db : Option DB) : VerificationResult :=
  if frames.length < 1 then
    { success := false, status := STATUS_NO_FRAMES, frame_count := 0 }
  else
    let frame_count := frames.length
    let identities := identitiesOf frames
    let frames_matched := identities.length
    if multiFaceCount frames > 0 && thresholds.MULTI_FACE_IS_PROXY_RISK then
      { success := false, status := STATUS_PROXY_MULTI_FACES,
        is_proxy_suspected := true,
        proxy_reason := some (multiFacesReason (multiFaceCount frames) frame_count),
        frame_count := frame_count, frames_matched := frames_matched }
    else if noFaceCount frames == frame_count then
      { success := false, status := STATUS_NO_FACE_DETECTED,
        frame_count := frame_count, frames_matched := 0 }
    else if frames_matched < thresholds.REQUIRED_CONSISTENT_FRAMES then
      if frames_matched == 0 then
        { success := false, status := STATUS_FACE_NOT_RECOGNIZED,
          frame_count := frame_count, frames_matched := 0 }
      else
        { success := false, status := inconsistentStatus frames_matched frame_count,
          frame_count := frame_count, frames_matched := frames_matched,
          notes := [onlyMatchedNote frames_matched] }
    else if identities.dedup.length > 1 then
      { success := false, status := STATUS_PROXY_IDENTITY_SWITCH,
        is_proxy_suspected := true,
        proxy_reason := some (identitySwitchReason identities),
        frame_count := frame_count, frames_matched := frames_matched }
    else
      verify_consistent_tail frames session_id claimed_student_id db

/-! ## api/routes/attendance.py -/

def SESSION_NOT_FOUND : String := "Session not found"

def BIOMETRIC_REQUIRED : String := "Biometric Required"

def sessNotActiveMsg (status : String) : String :=
  "Session is not active (status: " ++ status ++ ")"

/-- The API response model `AttendanceMarkResponse`. -/
structure AttendanceMarkResponse where
  success : Bool
  status : String
  student_name : Option String := none
  confidence : ℚ := 0
  confidence_label : String := LABEL_UNKNOWN
  proxy_suspected : Bool := false
  proxy_reason : Option String := none
  liveness_passed : Bool := false
  log_id : Option ℕ := none
  session_id : Option ℕ := none
  notes : List String := []
  face_rect : Option (List ℤ) := none
  deriving DecidableEq, Repr

/-- `_get_session_or_raise(db, session_id)`. -/
def get_session_or_raise (db : DB) (session_id : Option ℕ) :
    Except PyErr (Option AttendanceSession) :=
  match session_id with
  | none => .ok none
  | some sid =>
    if sid == 0 then .ok none
    else
      match db.sessions.find? (fun s => s.id == sid) with
      | none => .error (.http 404 SESSION_NOT_FOUND)
      | some session =>
        if !session.is_active then .error (.http 400 (sessNotActiveMsg session.status))
        else .ok (some session)

def confTooLowNote (confidence : ℚ) : String :=
  "Face confidence " ++ toString (pyRound1 confidence) ++
    "% too low - please verify with fingerprint"

def confBelow60Note (confidence : ℚ) : String :=
  "Face confidence " ++ toString (pyRound1 confidence) ++
    "% < 60% - please verify with fingerprint"

/-- `_apply_confidence_policy(confidence, notes)` (attendance.py 80-87).
Returns `(biometric_fallback, status)` and the mutated notes list.
Line 84 reads `thresholds.FACE_CONFIDENCE_BIOMETRIC_REQUIRED`, a field the
`VerificationThresholds` dataclass never defines, so every call that gets
past the first branch raises `AttributeError`; the `(False, "Face
Verified")` return on line 87 is unreachable. -/
def apply_confidence_policy (confidence : ℚ) (notes : List String) :
    Except PyErr (Bool × String × List String) :=
  if confidence < thresholds.FACE_CONFIDENCE_REJECT then
    .ok (true, BIOMETRIC_REQUIRED, notes ++ [confTooLowNote confidence])
  else
    .error .attributeError

def STATUS_PROXY_FP_MISMATCH : String := "Proxy Suspected: Fingerprint Mismatch"

def STATUS_PROXY_CARD_MISMATCH : String := "Proxy Suspected: ID Card Mismatch"

def idMismatchReason (claimed recognized : String) : String :=
  "Claimed " ++ claimed ++ ", recognized as " ++ recognized

def fpMismatchReason (recognized : String) : String :=
  "Fingerprint mismatch for " ++ recognized

def cardMismatchReason (recognized : String) : String :=
  "ID card mismatch for " ++ recognized

def METHOD_SUFFIX_FP : String := "+Fingerprint"

def METHOD_SUFFIX_CARD : String := "+IDCard"

/-- `_apply_claim_checks(...)`: returns
`(status, proxy_suspected, proxy_reason, verification_method)`. -/
def apply_claim_checks (db_student : Student)
    (student_id fingerprint_data id_card_scan : Option String)
    (recognized_name verification_method status : String)
    (proxy_suspected : Bool) (proxy_reason : Option String) :
    String × Bool × Option String × String :=
  let r1 :=
    if truthyStr student_id then
      let sidStr := student_id.getD ""
      if db_student.roll_number != sidStr && toString db_student.id != sidStr then
        (STATUS_PROXY_ID_MISMATCH, true,
          some (idMismatchReason sidStr recognized_name), verification_method)
      else (status, proxy_suspected, proxy_reason, verification_method)
    else (status, proxy_suspected, proxy_reason, verification_method)
  let r2 :=
    if truthyStr fingerprint_data then
      let vm := r1.2.2.2 ++ METHOD_SUFFIX_FP
      if db_student.fingerprint_id != fingerprint_data then
        (STATUS_PROXY_FP_MISMATCH, true, some (fpMismatchReason recognized_name), vm)
      else (r1.1, r1.2.1, r1.2.2.1, vm)
    else r1
  if truthyStr id_card_scan then
    let vm := r2.2.2.2 ++ METHOD_SUFFIX_CARD
    if db_student.id_card_code != id_card_scan then
      (STATUS_PROXY_CARD_MISMATCH, true, some (cardMismatchReason recognized_name), vm)
    else (r2.1, r2.2.1, r2.2.2.1, vm)
  else r2

def alreadyMarkedNote (t : ℚ) : String := "Already marked at " ++ toString t

/-- `_check_duplicate_attendance(db, session_id, db_student, status,
confidence, recognized_name)`. -/
def check_duplicate_attendance (db : DB) (session_id : Option ℕ)
    (db_student : Option Student) (status : String) (confidence : ℚ)
    (recognized_name : Option String) : Option AttendanceMarkResponse :=
  match session_id, db_student with
  | some sid, some student =>
    if sid == 0 then none
    else if !containsSub status STATUS_VERIFIED then none
    else
      match db.logs.find? (fun l =>
          l.student_id == some student.id && l.session_id == some sid &&
            containsSub l.status STATUS_VERIFIED) with
      | none => none
      | some existing =>
        some { success := false, status := STATUS_ALREADY_MARKED,
               student_name := recognized_name, confidence := confidence,
               confidence_label := thresholds.get_confidence_label confidence,
               notes := [alreadyMarkedNote existing.timestamp],
               session_id := some sid }
  | _, _ => none

def STATUS_UNKNOWN : String := "Unknown"

def METHOD_FACE : String := "Face"

/-- Per-decision mutable state bag (`_init_face_state`). -/
structure FaceState where
  status : String
  confidence : ℚ
  recognized_name : Option String
  face_rect : Option (List ℤ)
  proxy_suspected : Bool
  proxy_reason : Option String
  verification_method : String
  notes : List String
  db_student : Option Student
  biometric_fallback : Bool
  deriving DecidableEq, Repr

/-- `_init_face_state(verify_result)`. -/
def init_face_state (vr : FrameResult) : FaceState :=
  { status := STATUS_UNKNOWN,
    confidence := vr.confidence,
    recognized_name := vr.student_name,
    face_rect := vr.face_rect,
    proxy_suspected := false,
    proxy_reason := none,
    verification_method := METHOD_FACE,
    notes := [],
    db_student := none,
    biometric_fallback := false }

def noFaceNote : String := "No face detected - please use fingerprint for verification"

def multiFacesDetectedReason (face_count : ℕ) : String :=
  "Detected " ++ toString face_count ++ " faces - please verify with fingerprint"

def multiFacesNote : String := "Multiple faces detected - fingerprint verification required"

def UNKNOWN_ERROR : String := "Unknown error"

def faceErrorNote (msg : String) : String :=
  "Face detection error: " ++ msg ++ " - please use fingerprint for verification"

def notInDbNote (name : String) : String :=
  "Face recognized (" ++ name ++ ") but not in database - please verify with fingerprint"

/-- `_process_face_result(db, verify_result, state, ...)`.  Matched frames
always carry the recognized name, so the claimed-name comparison reads the
name through `Option.getD`. -/
def process_face_result (db : DB) (vr : FrameResult) (st : FaceState)
    (session_id : Option ℕ)
    (student_id fingerprint_data id_card_scan : Option String) :
    Except PyErr (FaceState × Option AttendanceMarkResponse) :=
  match vr.status with
  | .no_face =>
    .ok ({ st with
        biometric_fallback := true, status := BIOMETRIC_REQUIRED,
        notes := st.notes ++ [noFaceNote] }, none)
  | .multiple_faces =>
    .ok ({ st with
        biometric_fallback := true, status := BIOMETRIC_REQUIRED,
        proxy_suspected := true,
        proxy_reason := some (multiFacesDetectedReason vr.face_count),
        notes := st.notes ++ [multiFacesNote] }, none)
  | .error =>
    .ok ({ st with
        biometric_fallback := true, status := BIOMETRIC_REQUIRED,
        notes := st.notes ++ [faceErrorNote (vr.message.getD UNKNOWN_ERROR)] }, none)
  | .success =>
    if !truthyStr st.recognized_name then .ok (st, none)
    else
      match db.students.find? (fun s => some s.name == st.recognized_name) with
      | none =>
        .ok ({ st with
            db_student := none, biometric_fallback := true,
            status := BIOMETRIC_REQUIRED,
            notes := st.notes ++ [notInDbNote (st.recognized_name.getD "")] }, none)
      | some db_student =>
        let st1 := { st with db_student := some db_student }
        match apply_confidence_policy st1.confidence st1.notes with
        | .error e => .error e
        | .ok (bf, status, notes) =>
          let st2 := { st1 with
              biometric_fallback := bf, status := status,
              notes := notes }
          let st3 :=
            if !st2.biometric_fallback then
              let cc := apply_claim_checks db_student student_id
                  fingerprint_data id_card_scan (st2.recognized_name.getD "")
                  st2.verification_method st2.status st2.proxy_suspected
                  st2.proxy_reason
              { st2 with
                  status := cc.1, proxy_suspected := cc.2.1,
                  proxy_reason := cc.2.2.1, verification_method := cc.2.2.2 }
            else st2
          .ok (st3, check_duplicate_attendance db session_id st3.db_student
                st3.status st3.confidence st3.recognized_name)

def METHOD_FINGERPRINT : String := "Fingerprint"

def METHOD_ID_CARD : String := "ID Card"

def STATUS_BIOMETRICALLY_VERIFIED : String := "Biometrically Verified"

def STATUS_ID_CARD_VERIFIED : String := "ID Card Verified"

def STATUS_REJECTED_FP_NOT_FOUND : String := "Rejected: Fingerprint Not Found"

def STATUS_REJECTED_CARD_NOT_FOUND : String := "Rejected: ID Card Not Found"

def fpOnlyNote : String := "Verified by fingerprint only"

def fpNotRegisteredNote : String := "Fingerprint not registered in database"

def cardOnlyNote : String := "Verified by ID Card only"

def cardNotRegisteredNote : String := "ID Card not registered in database"

/-- `_apply_biometric_fallback(db, state, fingerprint_data, id_card_scan)`. -/
def apply_biometric_fallback (db : DB) (st : FaceState)
    (fingerprint_data id_card_scan : Option String) : FaceState :=
  if !st.biometric_fallback then st
  else if truthyStr fingerprint_data then
    match db.students.find? (fun s => s.fingerprint_id == fingerprint_data) with
    | some fingerprint_student =>
      { st with
          verification_method := METHOD_FINGERPRINT,
          status := STATUS_BIOMETRICALLY_VERIFIED,
          db_student := some fingerprint_student,
          recognized_name := some fingerprint_student.name,
          confidence := 100,
          notes := st.notes ++ [fpOnlyNote] }
    | none =>
      { st with
          status := STATUS_REJECTED_FP_NOT_FOUND,
          notes := st.notes ++ [fpNotRegisteredNote] }
  else if truthyStr id_card_scan then
    match db.students.find? (fun s => s.id_card_code == id_card_scan) with
    | some card_student =>
      { st with
          verification_method := METHOD_ID_CARD,
          status := STATUS_ID_CARD_VERIFIED,
          db_student := some card_student,
          recognized_name := some card_student.name,
          confidence := 100,
          notes := st.notes ++ [cardOnlyNote] }
    | none =>
      { st with
          status := STATUS_REJECTED_CARD_NOT_FOUND,
          notes := st.notes ++ [cardNotRegisteredNote] }
  else st

def anomalyNote (reason : String) : String := "⚠️ Anomaly: " ++ reason

/-- `_build_attendance_response(db, state, session_id, ...)`: builds the
response and, unless the biometric-required early return fires, appends
one `AttendanceLog` row to the store.  `now` is the commit timestamp and
`newLogId` the row id the store assigns. -/
def build_attendance_response (db : DB) (st : FaceState) (session_id : Option ℕ)
    (fingerprint_data id_card_scan : Option String) (lat lon : Option ℚ)
    (ip_address : Option String) (inp : AnomalyInputs) (now : ℚ)
    (newLogId : ℕ) : AttendanceMarkResponse × DB :=
  if st.biometric_fallback && !truthyStr fingerprint_data && !truthyStr id_card_scan then
    ({ success := false, status := BIOMETRIC_REQUIRED,
       student_name := st.recognized_name, confidence := st.confidence,
       confidence_label :=
         if st.confidence > 0 then thresholds.get_confidence_label st.confidence
         else LABEL_UNKNOWN,
       notes := st.notes, session_id := session_id }, db)
  else
    let log : AttendanceLog :=
      { id := newLogId,
        student_id := st.db_student.map (fun s => s.id),
        session_id := session_id,
        timestamp := now,
        status := st.status,
        confidence := st.confidence,
        avg_confidence := st.confidence,
        confidence_label := some (thresholds.get_confidence_label st.confidence),
        is_proxy_suspected := st.proxy_suspected,
        verification_method := some st.verification_method,
        notes :=
          if st.notes.isEmpty then none
          else some (String.intercalate COMMA_SEP st.notes),
        frame_count := 1,
        latitude := lat, longitude := lon, ip_address := ip_address }
    let anomalies := detect_anomalies inp log lat lon
    let log2 :=
      if !anomalies.isEmpty then
        { log with
            is_anomaly := true,
            anomaly_reason := some (String.intercalate COMMA_SEP anomalies) }
      else log
    let finalNotes :=
      if !anomalies.isEmpty then
        st.notes ++ [anomalyNote (String.intercalate COMMA_SEP anomalies)]
      else st.notes
    let db2 := { db with logs := db.logs ++ [log2] }
    ({ success := containsSub st.status STATUS_VERIFIED && !st.proxy_suspected,
       status := st.status,
       student_name := st.recognized_name,
       confidence := st.confidence,
       confidence_label := thresholds.get_confidence_label st.confidence,
       proxy_suspected := st.proxy_suspected,
       proxy_reason := st.proxy_reason,
       log_id := some newLogId,
       session_id := session_id,
       notes := finalNotes,
       face_rect := st.face_rect }, db2)

def INTERNAL_ERROR : String := "Internal Error"

/-- `except HTTPException: raise / except Exception: HTTPException(500)`. -/
def toInternalError : PyErr → PyErr
  | .http c m => .http c m
  | .attributeError => .http 500 INTERNAL_ERROR

/-- The `/attendance/mark` handler (single-frame path); `vr` is the
`face_service.verify_student` oracle output for the uploaded frame.
Returns the response (or the raised error) together with the store the
request leaves behind. -/
def mark_attendance (db : DB) (vr : FrameResult) (session_id : Option ℕ)
    (student_id fingerprint_data id_card_scan : Option String)
    (lat lon : Option ℚ) (ip_address : Option String)
    (inp : AnomalyInputs) (now : ℚ) (newLogId : ℕ) :
    Except PyErr AttendanceMarkResponse × DB :=
  match get_session_or_raise db session_id with
  | .error e => (.error e, db)
  | .ok _ =>
    let st0 := init_face_state vr
    match process_face_result db vr st0 session_id student_id fingerprint_data
        id_card_scan with
    | .error e => (.error (toInternalError e), db)
    | .ok (_, some dup) => (.ok dup, db)
    | .ok (st1, none) =>
      let st2 := apply_biometric_fallback db st1 fingerprint_data id_card_scan
      let rd := build_attendance_response db st2 session_id fingerprint_data
          id_card_scan lat lon ip_address inp now newLogId
      (.ok rd.1, rd.2)

def needFramesStatus : String :=
  "Need " ++ toString thresholds.REQUIRED_CONSISTENT_FRAMES ++ "+ frames"

def receivedFramesNote (n : ℕ) : String :=
  "Received " ++ toString n ++ " frames"

def STATUS_LIVENESS_FAILED : String := "Liveness Failed"

def METHOD_FACE_MULTIFRAME : String := "Face+MultiFrame"

/-- `liveness_service.check_liveness` oracle output. -/
structure LivenessOutcome where
  passed : Bool
  message : String
  deriving DecidableEq, Repr

/-- The `/attendance/mark-multi` handler; `frames` carries the per-frame
matcher oracle outputs and `liveness` the liveness-oracle output (consulted
only when the liveness check is enabled and verification succeeded). -/
def mark_attendance_multi (db : DB) (frames : List FrameResult)
    (session_id : Option ℕ) (student_id : Option String)
    (check_liveness : Bool) (lat lon : Option ℚ) (ip_address : Option String)
    (liveness : LivenessOutcome) (inp : AnomalyInputs) (now : ℚ)
    (newLogId : ℕ) : Except PyErr AttendanceMarkResponse × DB :=
  match get_session_or_raise db session_id with
  | .error e => (.error e, db)
  | .ok sessionOpt =>
    let checkLive := check_liveness ||
      (match sessionOpt with
       | some s => s.require_liveness
       | none => false)
    if frames.length < thresholds.REQUIRED_CONSISTENT_FRAMES then
      (.ok { success := false, status := needFramesStatus,
             notes := [receivedFramesNote frames.length] }, db)
    else
      let result0 := verify_multi_frame frames session_id student_id (some db)
      let rl : VerificationResult × Bool :=
        if checkLive && result0.success then
          if !liveness.passed then
            ({ result0 with
                success := false, status := STATUS_LIVENESS_FAILED,
                notes := result0.notes ++ [liveness.message] }, false)
          else (result0, true)
        else (result0, false)
      let result := rl.1
      let db_student :=
        if truthyStr result.student_name then
          db.students.find? (fun s => some s.name == result.student_name)
        else none
      let log : AttendanceLog :=
        { id := newLogId,
          student_id := db_student.map (fun s => s.id),
          session_id := session_id,
          timestamp := now,
          status := result.status,
          confidence := result.avg_confidence,
          avg_confidence := result.avg_confidence,
          confidence_label := some result.confidence_label,
          is_proxy_suspected := result.is_proxy_suspected,
          verification_method := some METHOD_FACE_MULTIFRAME,
          notes :=
            if result.notes.isEmpty then none
            else some (String.intercalate COMMA_SEP result.notes),
          frame_count := result.frame_count,
          liveness_passed := rl.2,
          latitude := lat, longitude := lon, ip_address := ip_address }
      let anomalies := detect_anomalies inp log lat lon
      let log2 :=
        if !anomalies.isEmpty then
          { log with
              is_anomaly := true,
              anomaly_reason := some (String.intercalate COMMA_SEP anomalies) }
        else log
      let finalNotes :=
        if !anomalies.isEmpty then
          result.notes ++ [anomalyNote (String.intercalate COMMA_SEP anomalies)]
        else result.notes
      let db2 := { db with logs := db.logs ++ [log2] }
      (.ok { success := result.success, status := result.status,
             student_name := result.student_name,
             confidence := result.avg_confidence,
             confidence_label := result.confidence_label,
             proxy_suspected := result.is_proxy_suspected,
             proxy_reason := some (String.intercalate COMMA_SEP finalNotes),
             log_id := some newLogId, session_id := session_id,
             notes := finalNotes, face_rect := none }, db2)

/-- Accepted (`Verified`-class) records for one `(student, session)` pair. -/
def acceptedCount (db : DB) (studentId sessionId : ℕ) : ℕ :=
  (db.logs.filter (fun l =>
    l.student_id == some studentId && l.session_id == some sessionId &&
      containsSub l.status STATUS_VERIFIED)).length

/-! ## Concrete inputs used by witnesses and counterexamples -/

def aliceName : String := "Alice"

def aliceFp : String := "fp1"

def alice : Student :=
  { id := 1, name := aliceName, roll_number := "R1", fingerprint_id := some aliceFp }

def origLog : AttendanceLog :=
  { student_id := some 1, session_id := some 7, timestamp := 500,
    status := STATUS_VERIFIED }

def activeSession7 : AttendanceSession := { id := 7, status := SESSION_ACTIVE }

def dbC2 : DB :=
  { students := [alice], logs := [origLog], sessions := [activeSession7] }

def noFaceFrame : FrameResult := { status := FrameStatus.no_face }

def bobName : String := "Bob"

def bobFrame45 : FrameResult :=
  { status := FrameStatus.success, isMatch := true,
    student_name := some bobName, confidence := 45 }

def bobStudent : Student := { id := 2, name := bobName, roll_number := "R2" }

def dbC3 : DB := { students := [bobStudent] }

def framesC3 : List FrameResult := [bobFrame45, bobFrame45, bobFrame45]

def bobSingleFrame45 : FrameResult :=
  { status := FrameStatus.success, isMatch := true,
    student_name := some bobName, confidence := 45 }

def multiFaceFrame : FrameResult := { status := FrameStatus.multiple_faces }

def bobFrame90 : FrameResult :=
  { status := FrameStatus.success, isMatch := true,
    student_name := some bobName, confidence := 90 }

def framesC4 : List FrameResult := [bobFrame90, multiFaceFrame, bobFrame90]

def errorFrame : FrameResult := { status := FrameStatus.error }

def framesC5 : List FrameResult := [errorFrame, errorFrame, errorFrame]

def emptyDb : DB := {}

def emptyInputs : AnomalyInputs := {}

def livenessOk : LivenessOutcome := { passed := true, message := "" }

def aliceFrame90 : FrameResult :=
  { status := FrameStatus.success, isMatch := true,
    student_name := some aliceName, confidence := 90 }

def framesAlice : List FrameResult := [aliceFrame90, aliceFrame90, aliceFrame90]

def bioLog : AttendanceLog :=
  { student_id := some 1, session_id := some 9, timestamp := 600,
    status := STATUS_BIOMETRICALLY_VERIFIED }

def activeSession9 : AttendanceSession := { id := 9, status := SESSION_ACTIVE }

def dbC2b : DB :=
  { students := [alice], logs := [bioLog], sessions := [activeSession9] }

def latC7 : Option ℚ := some 13

def lonC7 : Option ℚ := some 77

def inpC7 : AnomalyInputs := { distToCampus := 501 }

def logC7 : AttendanceLog := { status := STATUS_UNKNOWN }

def prevLogC8 : PrevLogInfo :=
  { timestamp := 940, latitude := some 13, longitude := some 77 }

def inpC8 : AnomalyInputs :=
  { distToCampus := 100, lastLog := some prevLogC8, distToLast := 50000 }

def logC8 : AttendanceLog :=
  { student_id := some 1, timestamp := 1000, status := STATUS_UNKNOWN }

def badThresholds : VerificationThresholds :=
  { FACE_CONFIDENCE_HIGH := 10, FACE_CONFIDENCE_MEDIUM := 20,
    FACE_CONFIDENCE_LOW := 30, FACE_CONFIDENCE_REJECT := 40 }

def fpTokenW : String := "fpw"

def cardTokenW : String := "cardw"

def stateW : FaceState :=
  { status := BIOMETRIC_REQUIRED, confidence := 0, recognized_name := none,
    face_rect := none, proxy_suspected := false, proxy_reason := none,
    verification_method := METHOD_FACE, notes := [], db_student := none,
    biometric_fallback := true }

/-! ## Theorems -/

/-- C1 counterexample.  The claim says confidence strictly below the reject
tier yields AutoReject and confidence at or above the require-fallback tier
yields Accept on face alone.  At confidence 30 (< 40) the code instead
returns the RequireFallback outcome (`Biometric Required`), and at
confidence 70 it raises `AttributeError` (the require-fallback tier
attribute is never defined) rather than accepting. -/
theorem C1_counterexample :
    apply_confidence_policy 30 [] =
      Except.ok (true, BIOMETRIC_REQUIRED, [confTooLowNote 30]) ∧
    apply_confidence_policy 70 [] = Except.error PyErr.attributeError := by
  constructor <;> · norm_num [apply_confidence_policy, thresholds]

/-- C1 (amended): the implemented confidence policy is a two-way split, not
a three-way one: confidence strictly below the reject tier (40) yields the
fallback-required outcome with status `Biometric Required` and a "too low"
note, and confidence at or above the reject tier raises `AttributeError`
because the configured require-fallback tier attribute
(`FACE_CONFIDENCE_BIOMETRIC_REQUIRED`) is never defined — so no confidence
value is accepted on face alone by this policy. -/
theorem C1_policy_two_way_split (confidence : ℚ) (notes : List String) :
    (confidence < thresholds.FACE_CONFIDENCE_REJECT →
      apply_confidence_policy confidence notes =
        Except.ok (true, BIOMETRIC_REQUIRED, notes ++ [confTooLowNote confidence])) ∧
    (thresholds.FACE_CONFIDENCE_REJECT ≤ confidence →
      apply_confidence_policy confidence notes = Except.error PyErr.attributeError) ∧
    (∀ b s ns, apply_confidence_policy confidence notes = Except.ok (b, s, ns) →
      s ≠ FACE_VERIFIED) := by
  refine ⟨fun h => ?_, fun h => ?_, fun b s ns h => ?_⟩
  · simp [apply_confidence_policy, h]
  · simp [apply_confidence_policy, not_lt.mpr h]
  · unfold apply_confidence_policy at h
    split at h
    · simp only [Except.ok.injEq, Prod.mk.injEq] at h
      rw [← h.2.1]
      decide
    · simp at h

/-- C6 counterexample: construction succeeds for a tier assignment that is
not strictly decreasing (reject = 40, low = 30, medium = 20, high = 10).
No configuration error is possible: the dataclass constructor is total. -/
theorem C6_counterexample :
    badThresholds.FACE_CONFIDENCE_REJECT = 40 ∧
    ¬ (badThresholds.FACE_CONFIDENCE_REJECT < badThresholds.FACE_CONFIDENCE_LOW ∧
        badThresholds.FACE_CONFIDENCE_LOW < badThresholds.FACE_CONFIDENCE_MEDIUM ∧
        badThresholds.FACE_CONFIDENCE_MEDIUM < badThresholds.FACE_CONFIDENCE_HIGH) := by
  constructor
  · rfl
  · intro h
    exact absurd h.1 (by norm_num [badThresholds])

/-- C6 (amended): `VerificationThresholds` performs no construction-time
validation — every tier assignment, ordered or not, constructs successfully
and stores the given tiers unchanged; only the default instance happens to
satisfy the strictly decreasing ordering reject < low < medium < high. -/
theorem C6_construction_unvalidated :
    (∀ h m l r : ℚ, ∃ t : VerificationThresholds,
      t.FACE_CONFIDENCE_HIGH = h ∧ t.FACE_CONFIDENCE_MEDIUM = m ∧
      t.FACE_CONFIDENCE_LOW = l ∧ t.FACE_CONFIDENCE_REJECT = r) ∧
    (thresholds.FACE_CONFIDENCE_REJECT < thresholds.FACE_CONFIDENCE_LOW ∧
      thresholds.FACE_CONFIDENCE_LOW < thresholds.FACE_CONFIDENCE_MEDIUM ∧
      thresholds.FACE_CONFIDENCE_MEDIUM < thresholds.FACE_CONFIDENCE_HIGH) := by
  refine ⟨fun h m l r => ?_, by norm_num [thresholds]⟩
  exact ⟨{ FACE_CONFIDENCE_HIGH := h, FACE_CONFIDENCE_MEDIUM := m,
           FACE_CONFIDENCE_LOW := l, FACE_CONFIDENCE_REJECT := r },
         rfl, rfl, rfl, rfl⟩

/-- If filtering drops nothing, every element satisfies the predicate. -/
theorem filterLengthAll {α : Type} (p : α → Bool) :
    ∀ l : List α, (l.filter p).length = l.length → ∀ a ∈ l, p a = true := by
  intro l
  induction l with
  | nil => intro _ a ha; simp at ha
  | cons x xs ih =>
    intro h a ha
    by_cases hx : p x = true
    · rw [List.filter_cons_of_pos hx] at h
      simp only [List.length_cons, Nat.add_right_cancel_iff] at h
      rcases List.mem_cons.mp ha with rfl | hmem
      · exact hx
      · exact ih h a hmem
    · rw [List.filter_cons_of_neg (by simpa using hx)] at h
      have hle := List.length_filter_le p xs
      simp only [List.length_cons] at h
      omega

/-- A frame collected into `identities` is a matched success frame, so not
every frame can be a `no_face` frame once one match exists. -/
theorem noFaceCount_ne_of_matched (frames : List FrameResult)
    (h : 0 < (identitiesOf frames).length) : noFaceCount frames ≠ frames.length := by
  intro hall
  unfold identitiesOf matchedOf at h
  rw [List.length_map] at h
  obtain ⟨f, hf⟩ := List.exists_mem_of_ne_nil _ (List.length_pos.mp h)
  have hmem := List.mem_filter.mp hf
  have hstat : f.status = FrameStatus.success := by
    have := hmem.2
    simp only [Bool.and_eq_true, beq_iff_eq] at this
    exact this.1
  unfold noFaceCount at hall
  have hno := filterLengthAll (fun g => g.status == FrameStatus.no_face) frames hall f hmem.1
  simp only [hstat] at hno
  simp at hno

/-- C4: if any frame reports `multiple_faces`, multi-frame verification
short-circuits to the `Proxy Suspected: Multiple Faces` rejection with the
proxy flag set and a reason counting the multi-face frames out of the total,
regardless of the identities and confidences in the other frames. -/
theorem C4_multi_face_short_circuits (frames : List FrameResult)
    (session_id : Option ℕ) (claimed : Option String) (db : Option DB)
    (hne : frames ≠ [])
    (hmf : ∃ f ∈ frames, f.status = FrameStatus.multiple_faces) :
    (verify_multi_frame frames session_id claimed db).status = STATUS_PROXY_MULTI_FACES ∧
    (verify_multi_frame frames session_id claimed db).is_proxy_suspected = true ∧
    (verify_multi_frame frames session_id claimed db).success = false ∧
    (verify_multi_frame frames session_id claimed db).proxy_reason =
      some (multiFacesReason (multiFaceCount frames) frames.length) := by
  have hlen : ¬ frames.length < 1 := by
    cases frames with
    | nil => simp at hne
    | cons f fs => simp
  have hcount : multiFaceCount frames > 0 := by
    obtain ⟨f, hf, hs⟩ := hmf
    have hm : f ∈ frames.filter (fun g => g.status == FrameStatus.multiple_faces) :=
      List.mem_filter.mpr ⟨hf, by simp [hs]⟩
    unfold multiFaceCount
    exact List.length_pos.mpr (List.ne_nil_of_mem hm)
  have hb : decide (multiFaceCount frames > 0) = true := decide_eq_true hcount
  unfold verify_multi_frame
  rw [if_neg hlen]
  simp only [hb, thresholds, Bool.true_and]
  norm_num

/-- Matched frames are a sublist, so `frames_matched ≤ frame_count`. -/
theorem identities_le_length (frames : List FrameResult) :
    (identitiesOf frames).length ≤ frames.length := by
  unfold identitiesOf matchedOf
  rw [List.length_map]
  exact List.length_filter_le _ _

/-- Once no frame is multi-face, at least `REQUIRED_CONSISTENT_FRAMES`
frames matched and their identities agree, `verify_multi_frame` runs its
consistent-identity tail. -/
theorem verify_eq_tail (frames : List FrameResult) (session_id : Option ℕ)
    (claimed : Option String) (db : Option DB)
    (hmf : multiFaceCount frames = 0)
    (hge : thresholds.REQUIRED_CONSISTENT_FRAMES ≤ (identitiesOf frames).length)
    (hone : ¬ 1 < (identitiesOf frames).dedup.length) :
    verify_multi_frame frames session_id claimed db =
      verify_consistent_tail frames session_id claimed db := by
  have hm_le := identities_le_length frames
  have hge3 : 3 ≤ (identitiesOf frames).length := by simpa [thresholds] using hge
  have h1 : ¬ frames.length < 1 := by omega
  have e2 : (noFaceCount frames == frames.length) = false := by
    have := noFaceCount_ne_of_matched frames (by omega)
    simpa using this
  have e3 : ¬ (identitiesOf frames).length < thresholds.REQUIRED_CONSISTENT_FRAMES :=
    not_lt.mpr hge
  unfold verify_multi_frame
  rw [if_neg h1]
  simp only [hmf, e2, gt_iff_lt, lt_self_iff_false, decide_False, Bool.false_and,
    Bool.false_eq_true, if_false, if_neg e3, if_neg hone]

/-- With no multi-face frame and no matched frame, `verify_multi_frame`
rejects with one of the three no-identity statuses (none of which reports
the matched count). -/
theorem vmf_zero_matched (frames : List FrameResult) (session_id : Option ℕ)
    (claimed : Option String) (db : Option DB)
    (hmf : multiFaceCount frames = 0)
    (h0 : (identitiesOf frames).length = 0) :
    ((verify_multi_frame frames session_id claimed db).status = STATUS_NO_FRAMES ∨
      (verify_multi_frame frames session_id claimed db).status = STATUS_NO_FACE_DETECTED ∨
      (verify_multi_frame frames session_id claimed db).status = STATUS_FACE_NOT_RECOGNIZED) ∧
    (verify_multi_frame frames session_id claimed db).success = false := by
  by_cases hl : frames.length < 1
  · unfold verify_multi_frame
    rw [if_pos hl]
    simp
  · by_cases hno : (noFaceCount frames == frames.length) = true
    · unfold verify_multi_frame
      rw [if_neg hl]
      simp only [hmf, hno, gt_iff_lt, lt_self_iff_false, decide_False, Bool.false_and,
        Bool.false_eq_true, if_false, if_true]
      simp
    · have hlt : (identitiesOf frames).length < thresholds.REQUIRED_CONSISTENT_FRAMES := by
        rw [h0]
        norm_num [thresholds]
      have h00 : ((identitiesOf frames).length == 0) = true := by simp [h0]
      have hno2 : (noFaceCount frames == frames.length) = false := by
        simpa using hno
      unfold verify_multi_frame
      rw [if_neg hl]
      simp only [hmf, hno2, gt_iff_lt, lt_self_iff_false, decide_False,
        Bool.false_and, Bool.false_eq_true, if_false, if_pos hlt, h00, if_true]
      simp

/-- With no multi-face frame and between one and
`REQUIRED_CONSISTENT_FRAMES - 1` matched frames, `verify_multi_frame`
returns the count-reporting inconsistent-recognition rejection. -/
theorem vmf_inconsistent (frames : List FrameResult) (session_id : Option ℕ)
    (claimed : Option String) (db : Option DB)
    (hmf : multiFaceCount frames = 0)
    (hpos : 0 < (identitiesOf frames).length)
    (hlt : (identitiesOf frames).length < thresholds.REQUIRED_CONSISTENT_FRAMES) :
    (verify_multi_frame frames session_id claimed db).status =
        inconsistentStatus (identitiesOf frames).length frames.length ∧
    (verify_multi_frame frames session_id claimed db).notes =
        [onlyMatchedNote (identitiesOf frames).length] ∧
    (verify_multi_frame frames session_id claimed db).success = false := by
  have hm_le := identities_le_length frames
  have hl : ¬ frames.length < 1 := by omega
  have e2 : (noFaceCount frames == frames.length) = false := by
    simpa using noFaceCount_ne_of_matched frames hpos
  have h00 : ((identitiesOf frames).length == 0) = false := by
    simpa using Nat.pos_iff_ne_zero.mp hpos
  unfold verify_multi_frame
  rw [if_neg hl]
  simp only [hmf, e2, gt_iff_lt, lt_self_iff_false, decide_False, Bool.false_and,
    Bool.false_eq_true, if_false, if_pos hlt, h00]
  simp

/-- With no multi-face frame, enough matched frames and two or more
distinct identities among them, `verify_multi_frame` returns the
identity-switch proxy rejection. -/
theorem vmf_identity_switch (frames : List FrameResult) (session_id : Option ℕ)
    (claimed : Option String) (db : Option DB)
    (hmf : multiFaceCount frames = 0)
    (hge : thresholds.REQUIRED_CONSISTENT_FRAMES ≤ (identitiesOf frames).length)
    (hsw : 1 < (identitiesOf frames).dedup.length) :
    (verify_multi_frame frames session_id claimed db).status =
        STATUS_PROXY_IDENTITY_SWITCH ∧
    (verify_multi_frame frames session_id claimed db).is_proxy_suspected = true ∧
    (verify_multi_frame frames session_id claimed db).success = false := by
  have hm_le := identities_le_length frames
  have hge3 : 3 ≤ (identitiesOf frames).length := by simpa [thresholds] using hge
  have hl : ¬ frames.length < 1 := by omega
  have e2 : (noFaceCount frames == frames.length) = false := by
    simpa using noFaceCount_ne_of_matched frames (by omega)
  have e3 := not_lt.mpr hge
  unfold verify_multi_frame
  rw [if_neg hl]
  simp only [hmf, e2, gt_iff_lt, lt_self_iff_false, decide_False, Bool.false_and,
    Bool.false_eq_true, if_false, if_neg e3, if_pos hsw]
  simp

/-- Witness for C4 at a concrete frame list: two high-confidence matches on
Bob around one multi-face frame still yield the multi-face proxy rejection. -/
theorem C4_witness :
    (verify_multi_frame framesC4 none none none).status = STATUS_PROXY_MULTI_FACES ∧
    (verify_multi_frame framesC4 none none none).is_proxy_suspected = true ∧
    (verify_multi_frame framesC4 none none none).success = false ∧
    (verify_multi_frame framesC4 none none none).proxy_reason =
      some (multiFacesReason (multiFaceCount framesC4) framesC4.length) :=
  C4_multi_face_short_circuits framesC4 none none none (by decide)
    ⟨multiFaceFrame, by decide, rfl⟩

/-- C5 counterexample: three `error` frames give zero matched frames —
below `REQUIRED_CONSISTENT_FRAMES` — yet the result is the count-free
`Face Not Recognized` rejection, not an insufficient-consistent-frames
rejection reporting the count (its notes are empty too). -/
theorem C5_counterexample :
    (verify_multi_frame framesC5 none none none).frames_matched = 0 ∧
    (0 : ℕ) < thresholds.REQUIRED_CONSISTENT_FRAMES ∧
    (verify_multi_frame framesC5 none none none).status = STATUS_FACE_NOT_RECOGNIZED ∧
    (verify_multi_frame framesC5 none none none).status ≠
      inconsistentStatus 0 framesC5.length ∧
    (verify_multi_frame framesC5 none none none).notes = [] ∧
    (verify_multi_frame framesC5 none none none).success = false := by
  refine ⟨by decide, by decide, by decide, by decide, by decide, by decide⟩

/-- C5 (amended): with no multi-face frame, (a) at least
`REQUIRED_CONSISTENT_FRAMES` matched frames holding more than one distinct
identity yield the `Proxy Suspected: Identity Switch` rejection with the
proxy flag set, whatever the confidences; (b) a matched count strictly
between zero and `REQUIRED_CONSISTENT_FRAMES` yields the
insufficient-consistent-frames rejection reporting the count; (c) a zero
matched count instead yields a count-free rejection (`No frames provided`,
`No Face Detected` or `Face Not Recognized`); and in every
below-threshold case the submission is never silently accepted. -/
theorem C5_switch_and_insufficient (frames : List FrameResult)
    (session_id : Option ℕ) (claimed : Option String) (db : Option DB)
    (hmf : multiFaceCount frames = 0) :
    (thresholds.REQUIRED_CONSISTENT_FRAMES ≤ (identitiesOf frames).length →
      1 < (identitiesOf frames).dedup.length →
      (verify_multi_frame frames session_id claimed db).status =
          STATUS_PROXY_IDENTITY_SWITCH ∧
      (verify_multi_frame frames session_id claimed db).is_proxy_suspected = true ∧
      (verify_multi_frame frames session_id claimed db).success = false) ∧
    (0 < (identitiesOf frames).length →
      (identitiesOf frames).length < thresholds.REQUIRED_CONSISTENT_FRAMES →
      (verify_multi_frame frames session_id claimed db).status =
          inconsistentStatus (identitiesOf frames).length frames.length ∧
      (verify_multi_frame frames session_id claimed db).notes =
          [onlyMatchedNote (identitiesOf frames).length] ∧
      (verify_multi_frame frames session_id claimed db).success = false) ∧
    ((identitiesOf frames).length = 0 →
      ((verify_multi_frame frames session_id claimed db).status = STATUS_NO_FRAMES ∨
        (verify_multi_frame frames session_id claimed db).status = STATUS_NO_FACE_DETECTED ∨
        (verify_multi_frame frames session_id claimed db).status =
          STATUS_FACE_NOT_RECOGNIZED) ∧
      (verify_multi_frame frames session_id claimed db).success = false) ∧
    ((identitiesOf frames).length < thresholds.REQUIRED_CONSISTENT_FRAMES →
      (verify_multi_frame frames session_id claimed db).success = false) := by
  refine ⟨fun hge hsw => ?_, fun hpos hlt => ?_, fun h0 => ?_, fun hlt => ?_⟩
  · exact vmf_identity_switch frames session_id claimed db hmf hge hsw
  · exact vmf_inconsistent frames session_id claimed db hmf hpos hlt
  · exact vmf_zero_matched frames session_id claimed db hmf h0
  · rcases Nat.eq_zero_or_pos (identitiesOf frames).length with h0 | hpos
    · exact (vmf_zero_matched frames session_id claimed db hmf h0).2
    · exact (vmf_inconsistent frames session_id claimed db hmf hpos hlt).2.2

/-- Witness for C5 at the three-error-frame input (no multi-face frame). -/
theorem C5_witness :
    (thresholds.REQUIRED_CONSISTENT_FRAMES ≤ (identitiesOf framesC5).length →
      1 < (identitiesOf framesC5).dedup.length →
      (verify_multi_frame framesC5 none none none).status =
          STATUS_PROXY_IDENTITY_SWITCH ∧
      (verify_multi_frame framesC5 none none none).is_proxy_suspected = true ∧
      (verify_multi_frame framesC5 none none none).success = false) ∧
    (0 < (identitiesOf framesC5).length →
      (identitiesOf framesC5).length < thresholds.REQUIRED_CONSISTENT_FRAMES →
      (verify_multi_frame framesC5 none none none).status =
          inconsistentStatus (identitiesOf framesC5).length framesC5.length ∧
      (verify_multi_frame framesC5 none none none).notes =
          [onlyMatchedNote (identitiesOf framesC5).length] ∧
      (verify_multi_frame framesC5 none none none).success = false) ∧
    ((identitiesOf framesC5).length = 0 →
      ((verify_multi_frame framesC5 none none none).status = STATUS_NO_FRAMES ∨
        (verify_multi_frame framesC5 none none none).status = STATUS_NO_FACE_DETECTED ∨
        (verify_multi_frame framesC5 none none none).status =
          STATUS_FACE_NOT_RECOGNIZED) ∧
      (verify_multi_frame framesC5 none none none).success = false) ∧
    ((identitiesOf framesC5).length < thresholds.REQUIRED_CONSISTENT_FRAMES →
      (verify_multi_frame framesC5 none none none).success = false) :=
  C5_switch_and_insufficient framesC5 none none none (by decide)

/-- C3 counterexample: a multi-frame submission whose three frames all
match Bob at confidence 45 (between reject = 40 and the fallback tier 60),
with no fallback token (the multi-frame endpoint takes none), is accepted
as `Verified` — not `BiometricRequired` — and `mark-multi` writes an
attendance log for it. -/
theorem C3_counterexample :
    (verify_multi_frame framesC3 none none (some emptyDb)).avg_confidence = 45 ∧
    (verify_multi_frame framesC3 none none (some emptyDb)).success = true ∧
    (verify_multi_frame framesC3 none none (some emptyDb)).status = STATUS_VERIFIED ∧
    (verify_multi_frame framesC3 none none (some emptyDb)).status ≠ BIOMETRIC_REQUIRED ∧
    (mark_attendance_multi emptyDb framesC3 none none false none none none
        livenessOk emptyInputs 1000 1).2.logs.length = emptyDb.logs.length + 1 := by
  have hconf : confidencesOf framesC3 = [45, 45, 45] := rfl
  have havg : avgConfOf framesC3 = 45 := by
    unfold avgConfOf
    rw [hconf, if_neg (by simp : ¬ ([45, 45, 45] : List ℚ) = [])]
    norm_num
  have htail := verify_eq_tail framesC3 none none (some emptyDb) (by decide) (by decide)
    (by decide)
  have havglt : ¬ avgConfOf framesC3 < thresholds.FACE_CONFIDENCE_REJECT := by
    rw [havg]
    norm_num [thresholds]
  refine ⟨?_, ?_, ?_, ?_, ?_⟩
  · rw [htail]
    unfold verify_consistent_tail
    rw [if_neg havglt]
    exact havg
  · rw [htail]
    unfold verify_consistent_tail
    rw [if_neg havglt]
  · rw [htail]
    unfold verify_consistent_tail
    rw [if_neg havglt]
    rfl
  · rw [htail]
    unfold verify_consistent_tail
    rw [if_neg havglt]
    show STATUS_VERIFIED ≠ BIOMETRIC_REQUIRED
    decide
  · unfold mark_attendance_multi
    simp only [get_session_or_raise]
    rw [if_neg (by decide : ¬ framesC3.length < thresholds.REQUIRED_CONSISTENT_FRAMES)]
    simp

/-- C3 (amended): at aggregated confidence 45 with no fallback token the
multi-frame path does not return `BiometricRequired`: it accepts
(`Verified`, confidence label `REJECTED`) and writes a log; the
single-frame path at face confidence 45 raises `AttributeError` (surfaced
as HTTP 500, because the require-fallback tier attribute is undefined) and
leaves the attendance-log store unchanged. -/
theorem C3_conf45_no_fallback (db : DB) (frames : List FrameResult)
    (vr : FrameResult) (student : Student) (lat lon : Option ℚ)
    (ip : Option String) (liveness : LivenessOutcome) (inp : AnomalyInputs)
    (now : ℚ) (lid : ℕ)
    (hmf : multiFaceCount frames = 0)
    (hge : thresholds.REQUIRED_CONSISTENT_FRAMES ≤ (identitiesOf frames).length)
    (hone : ¬ 1 < (identitiesOf frames).dedup.length)
    (havg : avgConfOf frames = 45)
    (hvs : vr.status = FrameStatus.success)
    (hvn : truthyStr vr.student_name = true)
    (hfind : db.students.find? (fun s => some s.name == vr.student_name) = some student)
    (hvc : vr.confidence = 45) :
    ((verify_multi_frame frames none none (some db)).success = true ∧
      (verify_multi_frame frames none none (some db)).status = STATUS_VERIFIED ∧
      (verify_multi_frame frames none none (some db)).confidence_label = LABEL_REJECTED) ∧
    (mark_attendance_multi db frames none none false lat lon ip liveness inp
        now lid).2.logs.length = db.logs.length + 1 ∧
    mark_attendance db vr none none none none lat lon ip inp now lid =
      (Except.error (PyErr.http 500 INTERNAL_ERROR), db) := by
  have htail := verify_eq_tail frames none none (some db) hmf hge hone
  have havglt : ¬ avgConfOf frames < thresholds.FACE_CONFIDENCE_REJECT := by
    rw [havg]
    norm_num [thresholds]
  have hlabel : thresholds.get_confidence_label (avgConfOf frames) = LABEL_REJECTED := by
    rw [havg]
    norm_num [VerificationThresholds.get_confidence_label, thresholds]
  refine ⟨⟨?_, ?_, ?_⟩, ?_, ?_⟩
  · rw [htail]
    unfold verify_consistent_tail
    rw [if_neg havglt]
  · rw [htail]
    unfold verify_consistent_tail
    rw [if_neg havglt]
    rfl
  · rw [htail]
    unfold verify_consistent_tail
    rw [if_neg havglt]
    exact hlabel
  · have h3 : (3 : ℕ) ≤ (identitiesOf frames).length := by simpa [thresholds] using hge
    have hm_le := identities_le_length frames
    have hframes : ¬ frames.length < thresholds.REQUIRED_CONSISTENT_FRAMES := by
      show ¬ frames.length < 3
      omega
    unfold mark_attendance_multi
    simp only [get_session_or_raise]
    rw [if_neg hframes]
    simp
  · obtain ⟨vst, vim, vsn, vcf, vfc, vfr, vmsg⟩ := vr
    dsimp only at hvs hvn hfind hvc
    subst hvs
    subst hvc
    unfold mark_attendance
    simp only [get_session_or_raise]
    unfold process_face_result init_face_state
    dsimp only
    rw [hvn]
    simp only [Bool.not_true, Bool.false_eq_true, if_false, hfind]
    have hpol : apply_confidence_policy 45 [] = Except.error PyErr.attributeError := by
      norm_num [apply_confidence_policy, thresholds]
    rw [hpol]
    rfl

/-- Witness for C3: Bob matched in three frames at confidence 45 against a
store holding Bob; the single-frame run uses the same store and a matched
45-confidence frame. -/
theorem C3_witness :
    ((verify_multi_frame framesC3 none none (some dbC3)).success = true ∧
      (verify_multi_frame framesC3 none none (some dbC3)).status = STATUS_VERIFIED ∧
      (verify_multi_frame framesC3 none none (some dbC3)).confidence_label =
        LABEL_REJECTED) ∧
    (mark_attendance_multi dbC3 framesC3 none none false none none none livenessOk
        emptyInputs 1000 1).2.logs.length = dbC3.logs.length + 1 ∧
    mark_attendance dbC3 bobSingleFrame45 none none none none none none none
        emptyInputs 1000 1 =
      (Except.error (PyErr.http 500 INTERNAL_ERROR), dbC3) :=
  C3_conf45_no_fallback dbC3 framesC3 bobSingleFrame45 bobStudent none none none
    livenessOk emptyInputs 1000 1 (by decide) (by decide) (by decide)
    (by
      have hconf : confidencesOf framesC3 = [45, 45, 45] := rfl
      unfold avgConfOf
      rw [hconf, if_neg (by simp : ¬ ([45, 45, 45] : List ℚ) = [])]
      norm_num)
    rfl (by decide) (by decide) rfl

/-- Appending a log that is `Verified`-class for the pair raises the pair's
accepted-record count by one. -/
theorem acceptedCount_append_accepted (db : DB) (l : AttendanceLog)
    (n sid : ℕ) (h1 : l.student_id = some n) (h2 : l.session_id = some sid)
    (h3 : containsSub l.status STATUS_VERIFIED = true) :
    acceptedCount { db with logs := db.logs ++ [l] } n sid =
      acceptedCount db n sid + 1 := by
  unfold acceptedCount
  simp [List.filter_append, h1, h2, h3]

/-- The accepted-record count after appending an `if` of two logs agrees
with the common count of the two branches. -/
theorem acceptedCountIte (db : DB) {c : Prop} [Decidable c]
    (A B : AttendanceLog) (n sid k : ℕ)
    (hA : acceptedCount { db with logs := db.logs ++ [A] } n sid = k)
    (hB : acceptedCount { db with logs := db.logs ++ [B] } n sid = k) :
    acceptedCount { db with logs := db.logs ++ [if c then A else B] } n sid =
      k := by
  by_cases h : c
  · rwa [if_pos h]
  · rwa [if_neg h]

/-- When the multi-frame tail is reached with no claimed identity and the
duplicate lookup — which filters on the exact statuses of
`acceptedStatusList` — finds nothing, `verify_multi_frame` accepts with
status `Verified`, whatever other records the store holds for the pair. -/
theorem vmf_no_dup_verified (frames : List FrameResult) (sid : ℕ) (db : DB)
    (student : Student)
    (hmf : multiFaceCount frames = 0)
    (hge : thresholds.REQUIRED_CONSISTENT_FRAMES ≤ (identitiesOf frames).length)
    (hone : ¬ 1 < (identitiesOf frames).dedup.length)
    (havg : ¬ avgConfOf frames < thresholds.FACE_CONFIDENCE_REJECT)
    (hsid : sid ≠ 0)
    (hstud : db.students.find?
        (fun s => some s.name == (identitiesOf frames).getD 0 none) = some student)
    (hnodup : db.logs.find? (fun l => l.student_id == some student.id &&
        l.session_id == some sid && acceptedStatusList.contains l.status) = none) :
    verify_multi_frame frames (some sid) none (some db) =
      { success := true, status := STATUS_VERIFIED,
        student_name := (identitiesOf frames).getD 0 none,
        avg_confidence := avgConfOf frames,
        confidence_label := thresholds.get_confidence_label (avgConfOf frames),
        frame_count := frames.length,
        frames_matched := (identitiesOf frames).length,
        liveness_passed := false, is_proxy_suspected := false,
        proxy_reason := none,
        notes :=
          (if thresholds.get_confidence_label (avgConfOf frames) == LABEL_LOW
            then [lowConfReverifyNote] else []) ++ [] } := by
  rw [verify_eq_tail frames (some sid) none (some db) hmf hge hone]
  have hsid2 : (sid != 0) = true := by simpa using hsid
  unfold verify_consistent_tail
  rw [if_neg havg]
  simp only [hsid2, if_true, check_duplicate, hstud, hnodup]
  rfl

/-- When the session is active, liveness is not demanded, the recognized
name resolves to a student, and the exact-status duplicate lookup misses,
`mark-multi` writes a new accepted record for the pair. -/
theorem markMulti_second_accepted (db : DB) (frames : List FrameResult)
    (sid : ℕ) (student : Student) (sess : AttendanceSession)
    (liveness : LivenessOutcome) (inp : AnomalyInputs)
    (lat lon : Option ℚ) (ip : Option String) (now : ℚ) (lid : ℕ)
    (hmf : multiFaceCount frames = 0)
    (hge : thresholds.REQUIRED_CONSISTENT_FRAMES ≤ (identitiesOf frames).length)
    (hone : ¬ 1 < (identitiesOf frames).dedup.length)
    (havg : ¬ avgConfOf frames < thresholds.FACE_CONFIDENCE_REJECT)
    (hsid : sid ≠ 0)
    (hstud : db.students.find?
        (fun s => some s.name == (identitiesOf frames).getD 0 none) = some student)
    (hnodup : db.logs.find? (fun l => l.student_id == some student.id &&
        l.session_id == some sid && acceptedStatusList.contains l.status) = none)
    (hsess : db.sessions.find? (fun s => s.id == sid) = some sess)
    (hact : sess.is_active = true)
    (hrl : sess.require_liveness = false)
    (htn : truthyStr ((identitiesOf frames).getD 0 none) = true) :
    acceptedCount (mark_attendance_multi db frames (some sid) none false lat lon
        ip liveness inp now lid).2 student.id sid =
      acceptedCount db student.id sid + 1 := by
  have hres := vmf_no_dup_verified frames sid db student hmf hge hone havg hsid
    hstud hnodup
  have hsid0 : (sid == 0) = false := by simpa using hsid
  have h3 : (3 : ℕ) ≤ (identitiesOf frames).length := by simpa [thresholds] using hge
  have hm_le := identities_le_length frames
  have hframes : ¬ frames.length < thresholds.REQUIRED_CONSISTENT_FRAMES := by
    show ¬ frames.length < 3
    omega
  unfold mark_attendance_multi
  simp only [get_session_or_raise, hsid0, Bool.false_eq_true, if_false, hsess, hact,
    Bool.not_true, if_neg hframes, hres, hrl, Bool.false_or, Bool.false_and,
    htn, if_true, hstud]
  refine acceptedCountIte db _ _ student.id sid _
    (acceptedCount_append_accepted db _ student.id sid rfl rfl
      (by
        show containsSub STATUS_VERIFIED STATUS_VERIFIED = true
        decide))
    (acceptedCount_append_accepted db _ student.id sid rfl rfl
      (by
        show containsSub STATUS_VERIFIED STATUS_VERIFIED = true
        decide))

/-- C2 counterexample: Alice already has an accepted (`Verified`) log for
session 7, yet a second single-frame submission that resolves her identity
through the fingerprint fallback (no face in frame, her fingerprint token
supplied) is not answered with `AlreadyMarked`: it returns
`Biometrically Verified` and writes a second accepted record for the same
`(identity, session)` pair. -/
theorem C2_counterexample :
    acceptedCount dbC2 1 7 = 1 ∧
    (mark_attendance dbC2 noFaceFrame (some 7) none (some aliceFp) none none none
        none emptyInputs 1000 2).1 =
      Except.ok
        { success := true, status := STATUS_BIOMETRICALLY_VERIFIED,
          student_name := some aliceName, confidence := 100,
          confidence_label := LABEL_HIGH, log_id := some 2, session_id := some 7,
          notes := [noFaceNote, fpOnlyNote] } ∧
    acceptedCount (mark_attendance dbC2 noFaceFrame (some 7) none (some aliceFp)
        none none none none emptyInputs 1000 2).2 1 7 = 2 := by
  refine ⟨by decide, by decide, by decide⟩

/-- Appending a log whose status is not `Verified`-class leaves the
accepted-record count of every `(student, session)` pair unchanged. -/
theorem acceptedCount_append_not_verified (db : DB) (l : AttendanceLog)
    (n sid : ℕ) (h : containsSub l.status STATUS_VERIFIED = false) :
    acceptedCount { db with logs := db.logs ++ [l] } n sid =
      acceptedCount db n sid := by
  unfold acceptedCount
  simp [List.filter_append, h]

/-- A status test is stable under an `if` whose two branches both satisfy it. -/
theorem statusIteNotVerified {c : Prop} [Decidable c] (A B : AttendanceLog)
    (hA : containsSub A.status STATUS_VERIFIED = false)
    (hB : containsSub B.status STATUS_VERIFIED = false) :
    containsSub (if c then A else B).status STATUS_VERIFIED = false := by
  by_cases h : c
  · rwa [if_pos h]
  · rwa [if_neg h]

/-- C2 (amended): the duplicate guard lives only in the face-resolving
multi-frame path, and it recognizes an existing record only when that
record's status is exactly one of `Verified`, `Verified (Biometric)` or
`Face Verified` — the exact-status list `_check_duplicate` filters on.
When the frames carry one consistent identity at accepted confidence in an
active session: if a guard-visible record exists for the resolved
`(student, session)` pair, the result is `Already Marked` carrying the
original record's timestamp, the log `mark-multi` then writes is itself
`Already Marked`, and the pair's accepted-record count is unchanged; if no
guard-visible record exists, the submission is accepted with status
`Verified` and `mark-multi` writes a further accepted record even when the
pair already holds accepted records of other statuses, such as a
fallback-written `Biometrically Verified` one.  The single-frame
fingerprint/ID-card fallback path performs no duplicate check at all
(counterexample). -/
theorem C2_duplicate_guard_multi (db : DB) (frames : List FrameResult) (sid : ℕ)
    (claimed : Option String) (student : Student)
    (sess : AttendanceSession) (liveness : LivenessOutcome) (inp : AnomalyInputs)
    (lat lon : Option ℚ) (ip : Option String) (now : ℚ) (lid : ℕ)
    (hmf : multiFaceCount frames = 0)
    (hge : thresholds.REQUIRED_CONSISTENT_FRAMES ≤ (identitiesOf frames).length)
    (hone : ¬ 1 < (identitiesOf frames).dedup.length)
    (havg : ¬ avgConfOf frames < thresholds.FACE_CONFIDENCE_REJECT)
    (hsid : sid ≠ 0)
    (hstud : db.students.find?
        (fun s => some s.name == (identitiesOf frames).getD 0 none) = some student)
    (hsess : db.sessions.find? (fun s => s.id == sid) = some sess)
    (hact : sess.is_active = true) :
    (∀ orig : AttendanceLog,
      db.logs.find? (fun l => l.student_id == some student.id &&
          l.session_id == some sid && acceptedStatusList.contains l.status) =
        some orig →
      (verify_multi_frame frames (some sid) claimed (some db)).status =
          STATUS_ALREADY_MARKED ∧
      (verify_multi_frame frames (some sid) claimed (some db)).success = false ∧
      (verify_multi_frame frames (some sid) claimed (some db)).notes =
          [alreadyMarkedMultiNote orig.timestamp] ∧
      acceptedCount (mark_attendance_multi db frames (some sid) claimed false lat
          lon ip liveness inp now lid).2 student.id sid =
        acceptedCount db student.id sid) ∧
    (db.logs.find? (fun l => l.student_id == some student.id &&
        l.session_id == some sid && acceptedStatusList.contains l.status) = none →
      sess.require_liveness = false →
      truthyStr ((identitiesOf frames).getD 0 none) = true →
      (verify_multi_frame frames (some sid) none (some db)).success = true ∧
      (verify_multi_frame frames (some sid) none (some db)).status =
          STATUS_VERIFIED ∧
      acceptedCount (mark_attendance_multi db frames (some sid) none false lat lon
          ip liveness inp now lid).2 student.id sid =
        acceptedCount db student.id sid + 1) := by
  constructor
  · intro orig horig
    have hveq := verify_eq_tail frames (some sid) claimed (some db) hmf hge hone
    have hsid2 : (sid != 0) = true := by simpa using hsid
    have hdup : verify_consistent_tail frames (some sid) claimed (some db) =
        { success := false, status := STATUS_ALREADY_MARKED,
          student_name := (identitiesOf frames).getD 0 none,
          avg_confidence := avgConfOf frames,
          confidence_label := thresholds.get_confidence_label (avgConfOf frames),
          frame_count := frames.length,
          frames_matched := (identitiesOf frames).length,
          notes := [alreadyMarkedMultiNote orig.timestamp] } := by
      unfold verify_consistent_tail
      rw [if_neg havg]
      simp only [hsid2, if_true, check_duplicate, hstud, horig]
    have hres : verify_multi_frame frames (some sid) claimed (some db) =
        { success := false, status := STATUS_ALREADY_MARKED,
          student_name := (identitiesOf frames).getD 0 none,
          avg_confidence := avgConfOf frames,
          confidence_label := thresholds.get_confidence_label (avgConfOf frames),
          frame_count := frames.length,
          frames_matched := (identitiesOf frames).length,
          notes := [alreadyMarkedMultiNote orig.timestamp] } := by
      rw [hveq, hdup]
    refine ⟨by rw [hres], by rw [hres], by rw [hres], ?_⟩
    have hsid0 : (sid == 0) = false := by simpa using hsid
    have h3 : (3 : ℕ) ≤ (identitiesOf frames).length := by simpa [thresholds] using hge
    have hm_le := identities_le_length frames
    have hframes : ¬ frames.length < thresholds.REQUIRED_CONSISTENT_FRAMES := by
      show ¬ frames.length < 3
      omega
    unfold mark_attendance_multi
    simp only [get_session_or_raise, hsid0, Bool.false_eq_true, if_false, hsess, hact,
      Bool.not_true, if_neg hframes, hres, Bool.and_false, Bool.false_and]
    refine acceptedCount_append_not_verified db _ student.id sid ?_
    refine statusIteNotVerified _ _ ?_ ?_ <;>
      · show containsSub STATUS_ALREADY_MARKED STATUS_VERIFIED = false
        decide
  · intro hnodup hrl htn
    have hres := vmf_no_dup_verified frames sid db student hmf hge hone havg hsid
      hstud hnodup
    exact ⟨by rw [hres], by rw [hres],
      markMulti_second_accepted db frames sid student sess liveness inp lat lon ip
        now lid hmf hge hone havg hsid hstud hnodup hsess hact hrl htn⟩

/-- Witness for C2 (amended), both halves: Alice matched in three frames at
confidence 90.  Against the store holding her exact-status `Verified`
session-7 log the guard fires and the count stays at one; against the store
holding only her fallback-written `Biometrically Verified` session-9 log
the guard misses and a second accepted record is written. -/
theorem C2_witness :
    ((verify_multi_frame framesAlice (some 7) none (some dbC2)).status =
        STATUS_ALREADY_MARKED ∧
      (verify_multi_frame framesAlice (some 7) none (some dbC2)).success = false ∧
      (verify_multi_frame framesAlice (some 7) none (some dbC2)).notes =
        [alreadyMarkedMultiNote origLog.timestamp] ∧
      acceptedCount (mark_attendance_multi dbC2 framesAlice (some 7) none false
          none none none livenessOk emptyInputs 1000 2).2 alice.id 7 =
        acceptedCount dbC2 alice.id 7) ∧
    ((verify_multi_frame framesAlice (some 9) none (some dbC2b)).success = true ∧
      (verify_multi_frame framesAlice (some 9) none (some dbC2b)).status =
        STATUS_VERIFIED ∧
      acceptedCount (mark_attendance_multi dbC2b framesAlice (some 9) none false
          none none none livenessOk emptyInputs 1000 3).2 alice.id 9 =
        acceptedCount dbC2b alice.id 9 + 1) :=
  ⟨(C2_duplicate_guard_multi dbC2 framesAlice 7 none alice activeSession7
      livenessOk emptyInputs none none none 1000 2 (by decide) (by decide)
      (by decide)
      (by
        have hconf : confidencesOf framesAlice = [90, 90, 90] := rfl
        unfold avgConfOf
        rw [hconf, if_neg (by simp : ¬ ([90, 90, 90] : List ℚ) = [])]
        norm_num [thresholds])
      (by decide) (by decide) (by decide) (by decide)).1 origLog (by decide),
    (C2_duplicate_guard_multi dbC2b framesAlice 9 none alice activeSession9
      livenessOk emptyInputs none none none 1000 3 (by decide) (by decide)
      (by decide)
      (by
        have hconf : confidencesOf framesAlice = [90, 90, 90] := rfl
        unfold avgConfOf
        rw [hconf, if_neg (by simp : ¬ ([90, 90, 90] : List ℚ) = [])]
        norm_num [thresholds])
      (by decide) (by decide) (by decide) (by decide)).2 (by decide) (by decide)
      (by decide)⟩

/-- C9: when the biometric fallback runs, the fingerprint token takes
priority over the ID-card token — with a fingerprint supplied the outcome
never consults the ID-card argument; a successful fingerprint (resp.
ID-card) match sets confidence 100 and the verification method to that
factor; and an unknown supplied token yields the factor-specific terminal
rejection, a status distinct from `Biometric Required`. -/
theorem C9_fallback_policy (db : DB) (st : FaceState) (fpv idcv : String)
    (idc : Option String)
    (hbf : st.biometric_fallback = true)
    (hfp : fpv.isEmpty = false) (hidc : idcv.isEmpty = false) :
    (apply_biometric_fallback db st (some fpv) idc =
      apply_biometric_fallback db st (some fpv) none) ∧
    (∀ stud, db.students.find? (fun s => s.fingerprint_id == some fpv) = some stud →
      (apply_biometric_fallback db st (some fpv) idc).confidence = 100 ∧
      (apply_biometric_fallback db st (some fpv) idc).verification_method =
        METHOD_FINGERPRINT ∧
      (apply_biometric_fallback db st (some fpv) idc).status =
        STATUS_BIOMETRICALLY_VERIFIED ∧
      (apply_biometric_fallback db st (some fpv) idc).db_student = some stud) ∧
    (db.students.find? (fun s => s.fingerprint_id == some fpv) = none →
      (apply_biometric_fallback db st (some fpv) idc).status =
        STATUS_REJECTED_FP_NOT_FOUND ∧
      STATUS_REJECTED_FP_NOT_FOUND ≠ BIOMETRIC_REQUIRED) ∧
    (∀ stud, db.students.find? (fun s => s.id_card_code == some idcv) = some stud →
      (apply_biometric_fallback db st none (some idcv)).confidence = 100 ∧
      (apply_biometric_fallback db st none (some idcv)).verification_method =
        METHOD_ID_CARD ∧
      (apply_biometric_fallback db st none (some idcv)).status =
        STATUS_ID_CARD_VERIFIED) ∧
    (db.students.find? (fun s => s.id_card_code == some idcv) = none →
      (apply_biometric_fallback db st none (some idcv)).status =
        STATUS_REJECTED_CARD_NOT_FOUND ∧
      STATUS_REJECTED_CARD_NOT_FOUND ≠ BIOMETRIC_REQUIRED) := by
  have htf : truthyStr (some fpv) = true := by
    simp [truthyStr, hfp]
  have hti : truthyStr (some idcv) = true := by
    simp [truthyStr, hidc]
  refine ⟨?_, fun stud hs => ?_, fun hn => ?_, fun stud hs => ?_, fun hn => ?_⟩
  · unfold apply_biometric_fallback
    simp only [hbf, Bool.not_true, Bool.false_eq_true, if_false, htf, if_true]
  · unfold apply_biometric_fallback
    simp only [hbf, Bool.not_true, Bool.false_eq_true, if_false, htf, if_true, hs]
    exact ⟨by trivial, by trivial, by trivial, by trivial⟩
  · unfold apply_biometric_fallback
    simp only [hbf, Bool.not_true, Bool.false_eq_true, if_false, htf, if_true, hn]
    exact ⟨by trivial, by decide⟩
  · unfold apply_biometric_fallback
    simp only [hbf, Bool.not_true, Bool.false_eq_true, if_false, hti, if_true, hs]
    exact ⟨by trivial, by trivial, by trivial⟩
  · unfold apply_biometric_fallback
    simp only [hbf, Bool.not_true, Bool.false_eq_true, if_false, hti, if_true, hn]
    exact ⟨by trivial, by decide⟩

/-- Witness for C9 on a concrete fallback-pending state and the store
holding only Alice (fingerprint `fp1`): with tokens `fpw`/`cardw`. -/
theorem C9_witness :
    (apply_biometric_fallback dbC2 stateW (some fpTokenW) (some cardTokenW) =
      apply_biometric_fallback dbC2 stateW (some fpTokenW) none) ∧
    (∀ stud, dbC2.students.find? (fun s => s.fingerprint_id == some fpTokenW) =
        some stud →
      (apply_biometric_fallback dbC2 stateW (some fpTokenW) (some cardTokenW)).confidence = 100 ∧
      (apply_biometric_fallback dbC2 stateW (some fpTokenW) (some cardTokenW)).verification_method =
        METHOD_FINGERPRINT ∧
      (apply_biometric_fallback dbC2 stateW (some fpTokenW) (some cardTokenW)).status =
        STATUS_BIOMETRICALLY_VERIFIED ∧
      (apply_biometric_fallback dbC2 stateW (some fpTokenW) (some cardTokenW)).db_student =
        some stud) ∧
    (dbC2.students.find? (fun s => s.fingerprint_id == some fpTokenW) = none →
      (apply_biometric_fallback dbC2 stateW (some fpTokenW) (some cardTokenW)).status =
        STATUS_REJECTED_FP_NOT_FOUND ∧
      STATUS_REJECTED_FP_NOT_FOUND ≠ BIOMETRIC_REQUIRED) ∧
    (∀ stud, dbC2.students.find? (fun s => s.id_card_code == some cardTokenW) =
        some stud →
      (apply_biometric_fallback dbC2 stateW none (some cardTokenW)).confidence = 100 ∧
      (apply_biometric_fallback dbC2 stateW none (some cardTokenW)).verification_method =
        METHOD_ID_CARD ∧
      (apply_biometric_fallback dbC2 stateW none (some cardTokenW)).status =
        STATUS_ID_CARD_VERIFIED) ∧
    (dbC2.students.find? (fun s => s.id_card_code == some cardTokenW) = none →
      (apply_biometric_fallback dbC2 stateW none (some cardTokenW)).status =
        STATUS_REJECTED_CARD_NOT_FOUND ∧
      STATUS_REJECTED_CARD_NOT_FOUND ≠ BIOMETRIC_REQUIRED) :=
  C9_fallback_policy dbC2 stateW fpTokenW cardTokenW (some cardTokenW)
    (by decide) (by decide) (by decide)

/-- The location sub-score is capped at the location weight. -/
theorem locPart_bounds (inp : AnomalyInputs) (log : AttendanceLog)
    (lat lon : Option ℚ) :
    0 ≤ (locPart inp log lat lon).2 ∧ (locPart inp log lat lon).2 ≤ W_location := by
  unfold locPart check_location_anomaly
  by_cases h1 : (lat.isSome && lon.isSome) = true
  · rw [if_pos h1]
    by_cases h2 : inp.distToCampus > MAX_DISTANCE_METERS
    · rw [if_pos h2]
      have hd : (0 : ℚ) < inp.distToCampus := by
        have h3 : (0 : ℚ) < MAX_DISTANCE_METERS := by norm_num [MAX_DISTANCE_METERS]
        linarith [h2]
      constructor
      · dsimp only
        refine le_min (by norm_num [W_location]) ?_
        have h4 : (0 : ℚ) ≤ inp.distToCampus / 5000 := by positivity
        have hw : (0 : ℚ) ≤ W_location := by norm_num [W_location]
        exact mul_nonneg hw h4
      · dsimp only
        exact min_le_left _ _
    · rw [if_neg h2]
      norm_num [W_location]
  · rw [if_neg h1]
    norm_num [W_location]

/-- The timing sub-score is capped at the time weight. -/
theorem timePart_bounds (inp : AnomalyInputs) (log : AttendanceLog) :
    0 ≤ (timePart inp log).2 ∧ (timePart inp log).2 ≤ W_time := by
  unfold timePart check_time_anomaly
  by_cases hg : truthyNat log.session_id = true
  · rw [if_pos hg]
    rcases hs : inp.sessionRec with _ | sess
    · norm_num [W_time]
    · obtain ⟨sid2, sst, srl, sstart, send⟩ := sess
      rcases send with _ | e <;> rcases sstart with _ | b <;> dsimp only <;>
        (try split_ifs) <;> constructor <;>
        norm_num [W_time, le_max_iff, max_le_iff]
  · rw [if_neg hg]
    norm_num [W_time]

/-- The impossible-travel sub-score is capped at the travel weight. -/
theorem travPart_bounds (inp : AnomalyInputs) (log : AttendanceLog)
    (lat lon : Option ℚ) :
    0 ≤ (travPart inp log lat lon).2 ∧ (travPart inp log lat lon).2 ≤ W_travel := by
  unfold travPart check_behavioral_anomaly
  by_cases hg : truthyNat log.student_id = true
  · rw [if_pos hg]
    rcases hll : inp.lastLog with _ | ll
    · norm_num [W_travel]
    · dsimp only
      split_ifs <;> constructor <;> norm_num [W_travel]
  · rw [if_neg hg]
    norm_num [W_travel]

/-- The failed-attempts sub-score is capped at its weight. -/
theorem failPart_bounds (inp : AnomalyInputs) (log : AttendanceLog) :
    0 ≤ (failPart inp log).2 ∧ (failPart inp log).2 ≤ W_failed_attempts := by
  unfold failPart check_failed_attempts
  dsimp only
  split_ifs <;> constructor <;>
    norm_num [W_failed_attempts, W_device, le_max_iff, max_le_iff]

/-- The device sub-score is capped at the device weight. -/
theorem devPart_bounds (inp : AnomalyInputs) (log : AttendanceLog) :
    0 ≤ (devPart inp log).2 ∧ (devPart inp log).2 ≤ W_device := by
  unfold devPart check_device_anomaly
  split_ifs <;> constructor <;> norm_num [W_device]

/-- `roundHalfEven` never rounds up past half. -/
theorem roundHalfEven_le (y : ℚ) : (roundHalfEven y : ℚ) ≤ y + 1 / 2 := by
  unfold roundHalfEven
  dsimp only
  have hfl := Int.floor_le y
  split_ifs with h1 h2 h3
  · linarith
  · push_cast
    linarith [h2]
  · linarith
  · push_cast
    have he : y - ⌊y⌋ = 1 / 2 := le_antisymm (not_lt.mp h2) (not_lt.mp h1)
    linarith

/-- `roundHalfEven` of a nonnegative number is nonnegative. -/
theorem roundHalfEven_nonneg (y : ℚ) (h0 : 0 ≤ y) : 0 ≤ roundHalfEven y := by
  unfold roundHalfEven
  dsimp only
  have hf0 : (0 : ℤ) ≤ ⌊y⌋ := Int.floor_nonneg.mpr h0
  split_ifs <;> omega

/-- `pyRound1` keeps a score inside `[0, 100]`. -/
theorem pyRound1_bounds (x : ℚ) (h0 : 0 ≤ x) (hM : x ≤ 100) :
    0 ≤ pyRound1 x ∧ pyRound1 x ≤ 100 := by
  unfold pyRound1
  have h0y : (0 : ℚ) ≤ 10 * x := by linarith
  have hle := roundHalfEven_le (10 * x)
  have hge := roundHalfEven_nonneg (10 * x) h0y
  constructor
  · have : (0 : ℚ) ≤ (roundHalfEven (10 * x) : ℚ) := by exact_mod_cast hge
    positivity
  · have h1 : (roundHalfEven (10 * x) : ℚ) ≤ 1000 + 1 / 2 := by linarith
  
    have h2 : roundHalfEven (10 * x) ≤ 1000 := by
      by_contra hc
      push_neg at hc
      have h3 : (1001 : ℚ) ≤ (roundHalfEven (10 * x) : ℚ) := by exact_mod_cast hc
      linarith
    rw [div_le_iff₀ (by norm_num : (0 : ℚ) < 10)]
    have : (roundHalfEven (10 * x) : ℚ) ≤ 1000 := by exact_mod_cast h2
    linarith

/-- C7 counterexample: with the submitted position 501 m from campus and
every other signal clean, the sum of the sub-scores is `30 · 501/5000 =
3.006`, but the returned risk score is the rounded `3.0` — the returned
value does not equal `min(100, sum of sub-scores)`. -/
theorem C7_counterexample :
    (analyze_anomalies inpC7 logC7 latC7 lonC7).risk_score = 3 ∧
    min 100 (subScoresTotal inpC7 logC7 latC7 lonC7) = 3006 / 1000 ∧
    (analyze_anomalies inpC7 logC7 latC7 lonC7).risk_score ≠
      min 100 (subScoresTotal inpC7 logC7 latC7 lonC7) := by
  have hloc : (locPart inpC7 logC7 latC7 lonC7).2 = 3006 / 1000 := by
    unfold locPart check_location_anomaly
    rw [if_pos (by decide), if_pos (by norm_num [inpC7, MAX_DISTANCE_METERS])]
    dsimp only
    rw [min_eq_right (by norm_num [inpC7, W_location])]
    norm_num [inpC7, W_location]
  have htime : (timePart inpC7 logC7).2 = 0 := rfl
  have htrav : (travPart inpC7 logC7 latC7 lonC7).2 = 0 := rfl
  have hfail : (failPart inpC7 logC7).2 = 0 := rfl
  have hdev : (devPart inpC7 logC7).2 = 0 := rfl
  have htot : min 100 (subScoresTotal inpC7 logC7 latC7 lonC7) = 3006 / 1000 := by
    unfold subScoresTotal
    rw [hloc, htime, htrav, hfail, hdev]
    rw [min_eq_right (by norm_num)]
    norm_num
  have hfloor : ⌊(3006 / 100 : ℚ)⌋ = 30 := by
    rw [Int.floor_eq_iff]
    norm_num
  have hscore : (analyze_anomalies inpC7 logC7 latC7 lonC7).risk_score = 3 := by
    show pyRound1 (min 100 ((locPart inpC7 logC7 latC7 lonC7).2 +
      (timePart inpC7 logC7).2 + (travPart inpC7 logC7 latC7 lonC7).2 +
      (failPart inpC7 logC7).2 + (devPart inpC7 logC7).2)) = 3
    rw [hloc, htime, htrav, hfail, hdev]
    rw [min_eq_right (by norm_num)]
    unfold pyRound1 roundHalfEven
    have h10 : (10 : ℚ) * (3006 / 1000 + 0 + 0 + 0 + 0) = 3006 / 100 := by norm_num
    rw [h10, hfloor]
    rw [if_pos (by norm_num)]
    norm_num
  refine ⟨hscore, htot, ?_⟩
  rw [hscore, htot]
  norm_num

/-- C7 (amended): the returned risk score is `min(100, sum of the five
sub-scores)` rounded to one decimal place; each sub-score is individually
capped at its configured weight (30/20/40/25/15) and nonnegative, and the
returned risk score always lies in `[0, 100]`. -/
theorem C7_risk_score_capped (inp : AnomalyInputs) (log : AttendanceLog)
    (lat lon : Option ℚ) :
    (analyze_anomalies inp log lat lon).risk_score =
      pyRound1 (min 100 (subScoresTotal inp log lat lon)) ∧
    (0 ≤ (locPart inp log lat lon).2 ∧ (locPart inp log lat lon).2 ≤ W_location) ∧
    (0 ≤ (timePart inp log).2 ∧ (timePart inp log).2 ≤ W_time) ∧
    (0 ≤ (travPart inp log lat lon).2 ∧ (travPart inp log lat lon).2 ≤ W_travel) ∧
    (0 ≤ (failPart inp log).2 ∧ (failPart inp log).2 ≤ W_failed_attempts) ∧
    (0 ≤ (devPart inp log).2 ∧ (devPart inp log).2 ≤ W_device) ∧
    0 ≤ (analyze_anomalies inp log lat lon).risk_score ∧
    (analyze_anomalies inp log lat lon).risk_score ≤ 100 := by
  have hl := locPart_bounds inp log lat lon
  have ht := timePart_bounds inp log
  have hv := travPart_bounds inp log lat lon
  have hf := failPart_bounds inp log
  have hd := devPart_bounds inp log
  have heq : (analyze_anomalies inp log lat lon).risk_score =
      pyRound1 (min 100 (subScoresTotal inp log lat lon)) := rfl
  have h0 : 0 ≤ min 100 (subScoresTotal inp log lat lon) := by
    refine le_min (by norm_num) ?_
    unfold subScoresTotal
    linarith [hl.1, ht.1, hv.1, hf.1, hd.1]
  have h100 : min 100 (subScoresTotal inp log lat lon) ≤ 100 := min_le_left _ _
  have hb := pyRound1_bounds _ h0 h100
  exact ⟨heq, hl, ht, hv, hf, hd, by rw [heq]; exact hb.1, by rw [heq]; exact hb.2⟩

/-- A score of at least 25 maps to `MEDIUM` severity or above. -/
theorem risk_level_ge_medium (s : ℚ) (h : 25 ≤ s) :
    levelRank RiskLevel.MEDIUM ≤ levelRank (calculate_risk_level s) := by
  unfold calculate_risk_level
  split_ifs with h1 h2
  · simp [levelRank]
  · simp [levelRank]
  · simp [levelRank]

/-- C8 counterexample: the second claim sits on campus (100 m), 50 km from
the previous claim 60 s earlier, with no other anomaly signal.  The
impossible-travel reason is present, but the risk score is exactly the
travel weight 40, which maps to `MEDIUM` — strictly below `HIGH`. -/
theorem C8_counterexample :
    (analyze_anomalies inpC8 logC8 latC7 lonC7).risk_level = RiskLevel.MEDIUM ∧
    impossibleTravelReason 50000 60 (50000 / 60) ∈
      (analyze_anomalies inpC8 logC8 latC7 lonC7).reasons ∧
    levelRank (analyze_anomalies inpC8 logC8 latC7 lonC7).risk_level <
      levelRank RiskLevel.HIGH := by
  have habs : |(1000 : ℚ) - 940| = 60 := by
    rw [abs_of_nonneg (by norm_num)]
    norm_num
  have htrav : travPart inpC8 logC8 latC7 lonC7 =
      ([impossibleTravelReason 50000 60 (50000 / 60)], W_travel) := by
    unfold travPart check_behavioral_anomaly
    rw [if_pos (by decide : truthyNat logC8.student_id = true)]
    show (if (truthyQ prevLogC8.latitude && truthyQ prevLogC8.longitude &&
        truthyQ latC7 && truthyQ lonC7) = true then _ else _) = _
    rw [if_pos (by decide)]
    dsimp only [prevLogC8, logC8, inpC8]
    rw [habs]
    rw [if_neg (by norm_num : ¬ (60 : ℚ) < 1)]
    rw [if_pos (by norm_num [IMPOSSIBLE_SPEED_MPS] :
      (50000 : ℚ) / 60 > IMPOSSIBLE_SPEED_MPS)]
  have hloc : locPart inpC8 logC8 latC7 lonC7 = ([], 0) := by
    unfold locPart check_location_anomaly
    rw [if_pos (by decide)]
    rw [if_neg (by norm_num [inpC8, MAX_DISTANCE_METERS])]
  have htime : timePart inpC8 logC8 = ([], 0) := rfl
  have hfail : failPart inpC8 logC8 = ([], 0) := rfl
  have hdev : devPart inpC8 logC8 = ([], 0) := rfl
  have hreasons : (analyze_anomalies inpC8 logC8 latC7 lonC7).reasons =
      [impossibleTravelReason 50000 60 (50000 / 60)] := by
    show (locPart inpC8 logC8 latC7 lonC7).1 ++ (timePart inpC8 logC8).1 ++
        (travPart inpC8 logC8 latC7 lonC7).1 ++ (failPart inpC8 logC8).1 ++
        (devPart inpC8 logC8).1 = _
    rw [hloc, htime, htrav, hfail, hdev]
    rfl
  have hlevel : (analyze_anomalies inpC8 logC8 latC7 lonC7).risk_level =
      RiskLevel.MEDIUM := by
    show calculate_risk_level (min 100 ((locPart inpC8 logC8 latC7 lonC7).2 +
      (timePart inpC8 logC8).2 + (travPart inpC8 logC8 latC7 lonC7).2 +
      (failPart inpC8 logC8).2 + (devPart inpC8 logC8).2)) = RiskLevel.MEDIUM
    rw [hloc, htime, htrav, hfail, hdev]
    rw [min_eq_right (by norm_num [W_travel])]
    unfold calculate_risk_level
    rw [if_neg (by norm_num [W_travel]), if_neg (by norm_num [W_travel]),
      if_pos (by norm_num [W_travel])]
  refine ⟨hlevel, ?_, ?_⟩
  · rw [hreasons]
    exact List.mem_singleton.mpr rfl
  · rw [hlevel]
    decide

/-- C8 (amended): for a claim whose identity has a previous log 60 seconds
earlier and 50 km away (implied speed ≈ 833 m/s, above the 42 m/s limit),
the anomaly result contains the impossible-travel reason and its risk level
is at least `MEDIUM` — the travel weight alone (40) reaches `MEDIUM`, not
`HIGH` (counterexample). -/
theorem C8_impossible_travel (inp : AnomalyInputs) (log : AttendanceLog)
    (lat lon : Option ℚ) (ll : PrevLogInfo)
    (hstud : truthyNat log.student_id = true)
    (hll : inp.lastLog = some ll)
    (hco : (truthyQ ll.latitude && truthyQ ll.longitude && truthyQ lat &&
        truthyQ lon) = true)
    (htd : |log.timestamp - ll.timestamp| = 60)
    (hdist : inp.distToLast = 50000) :
    impossibleTravelReason 50000 60 (50000 / 60) ∈
      (analyze_anomalies inp log lat lon).reasons ∧
    levelRank RiskLevel.MEDIUM ≤
      levelRank (analyze_anomalies inp log lat lon).risk_level := by
  have htrav : travPart inp log lat lon =
      ([impossibleTravelReason 50000 60 (50000 / 60)], W_travel) := by
    unfold travPart check_behavioral_anomaly
    rw [if_pos hstud, hll]
    show (if (truthyQ ll.latitude && truthyQ ll.longitude && truthyQ lat &&
        truthyQ lon) = true then _ else _) = _
    rw [if_pos hco, htd, hdist]
    dsimp only
    rw [if_neg (by norm_num : ¬ (60 : ℚ) < 1)]
    rw [if_pos (by norm_num [IMPOSSIBLE_SPEED_MPS] :
      (50000 : ℚ) / 60 > IMPOSSIBLE_SPEED_MPS)]
  have hl := locPart_bounds inp log lat lon
  have ht := timePart_bounds inp log
  have hf := failPart_bounds inp log
  have hd := devPart_bounds inp log
  constructor
  · show _ ∈ (locPart inp log lat lon).1 ++ (timePart inp log).1 ++
        (travPart inp log lat lon).1 ++ (failPart inp log).1 ++ (devPart inp log).1
    rw [htrav]
    simp [List.mem_append]
  · show levelRank RiskLevel.MEDIUM ≤
      levelRank (calculate_risk_level (min 100 ((locPart inp log lat lon).2 +
        (timePart inp log).2 + (travPart inp log lat lon).2 + (failPart inp log).2 +
        (devPart inp log).2)))
    refine risk_level_ge_medium _ ?_
    rw [htrav]
    refine le_min (by norm_num) ?_
    show (25 : ℚ) ≤ _ + _ + W_travel + _ + _
    have hw : (40 : ℚ) = W_travel := by norm_num [W_travel]
    linarith [hl.1, ht.1, hf.1, hd.1, hw]

/-- Witness for C8 (amended) at the concrete two-claim scenario. -/
theorem C8_witness :
    impossibleTravelReason 50000 60 (50000 / 60) ∈
      (analyze_anomalies inpC8 logC8 latC7 lonC7).reasons ∧
    levelRank RiskLevel.MEDIUM ≤
      levelRank (analyze_anomalies inpC8 logC8 latC7 lonC7).risk_level :=
  C8_impossible_travel inpC8 logC8 latC7 lonC7 prevLogC8 (by decide) rfl
    (by decide)
    (by
      show |(1000 : ℚ) - 940| = 60
      rw [abs_of_nonneg (by norm_num)]
      norm_num)
    rfl

/-- If the concatenated reasons are nonempty, so is the concatenation of
the per-check recommendations (one per nonempty reason list). -/
theorem recsNonemptyOf (a b c d e : List String) (ra rb rc rd re : String)
    (h : a ++ b ++ c ++ d ++ e ≠ []) :
    (if a.isEmpty then [] else [ra]) ++ (if b.isEmpty then [] else [rb]) ++
      (if c.isEmpty then [] else [rc]) ++ (if d.isEmpty then [] else [rd]) ++
      (if e.isEmpty then [] else [re]) ≠ [] := by
  intro hrec
  apply h
  by_cases ha : a.isEmpty <;> by_cases hb : b.isEmpty <;> by_cases hc : c.isEmpty <;>
    by_cases hd : d.isEmpty <;> by_cases he : e.isEmpty <;>
    simp_all [List.isEmpty_iff]

/-- C10: the anomaly flag is set exactly when the reasons list is nonempty,
and a nonempty reasons list always comes with a nonempty recommendations
list (each sub-check that contributes a reason appends a recommendation). -/
theorem C10_anomaly_iff_reasons (inp : AnomalyInputs) (log : AttendanceLog)
    (lat lon : Option ℚ) :
    ((analyze_anomalies inp log lat lon).is_anomaly = true ↔
      (analyze_anomalies inp log lat lon).reasons ≠ []) ∧
    ((analyze_anomalies inp log lat lon).reasons ≠ [] →
      (analyze_anomalies inp log lat lon).recommendations ≠ []) := by
  constructor
  · show decide (0 < ((locPart inp log lat lon).1 ++ (timePart inp log).1 ++
        (travPart inp log lat lon).1 ++ (failPart inp log).1 ++
        (devPart inp log).1).length) = true ↔ _
    rw [decide_eq_true_eq, List.length_pos]
    exact Iff.rfl
  · intro h
    have h2 : (locPart inp log lat lon).1 ++ (timePart inp log).1 ++
        (travPart inp log lat lon).1 ++ (failPart inp log).1 ++
        (devPart inp log).1 ≠ [] := h
    exact recsNonemptyOf _ _ _ _ _ _ _ _ _ _ h2
